import Mathlib

/-!
Shallow embedding of `send_and_upload.js` (a pixeldrain → Telegram relay
script, Node 18+).

The script is one linear pipeline driven by environment configuration.  Its
external effects (the metadata HEAD probe, the folder-listing fetch, wget
downloads, the zip archiver, curl uploads, Telegram message sends, filesystem
cleanup) are modelled by an oracle `World` describing how each external
operation would respond.  Every run is interpreted into an event trace
`List Ev` together with an `Except` result mirroring JavaScript exception
propagation; the process exit code is derived exactly as in the script's
top-level IIFE (0 on normal completion, 1 from the catch block).
-/

namespace PixelBot

/-- One event per externally visible operation the script performs, in the
order the script performs them. -/
inductive Ev where
  | tgSend (text : String)
  | httpHead (url : String)
  | httpGet (url : String)
  | mkdtemp (dir : String)
  | wgetRun (url : String) (outPath : String)
  | zipRun (zipPath : String) (cwd : String)
  | curlUpload (filePath : String) (caption : String)
  | unlink (p : String)
  | rmdirRec (p : String)
deriving DecidableEq, Repr

/-- A thrown JavaScript error, carrying `err.message`. -/
structure JsErr where
  message : String
deriving DecidableEq, Repr

/-- Result of interpreting a fragment of the script: the event trace it
produced and either normal completion or a thrown error. -/
structure Res (α : Type) where
  evs : List Ev
  res : Except JsErr α

/-- `await x; then continue` — later events happen only if `x` did not throw. -/
def Res.seq (x : Res Unit) (y : Res α) : Res α :=
  match x.res with
  | .error e => ⟨x.evs, .error e⟩
  | .ok _ => ⟨x.evs ++ y.evs, y.res⟩

/-- `try x finally fin` with JavaScript semantics: `fin` always runs; if `fin`
itself throws, its error replaces the result (our cleanup blocks never do). -/
def Res.withFinal (x : Res α) (fin : Res Unit) : Res α :=
  ⟨x.evs ++ fin.evs, match fin.res with | .error e => .error e | .ok _ => x.res⟩

/-- `try x catch {}` — the error (if any) is swallowed. -/
def Res.catchAll (x : Res Unit) : Res Unit := ⟨x.evs, .ok ()⟩

def Res.pureU : Res Unit := ⟨[], .ok ()⟩

/-- Did the fragment complete without throwing? -/
def Res.completed (x : Res α) : Bool :=
  match x.res with | .ok _ => true | .error _ => false

/-! ## Remote responses and the oracle `World` -/

/-- Outcome of the display-name extraction of `handleFile` (lines 85-88):
the content-disposition regex capture `m && (m[1] || m[2])` followed by
`decodeURIComponent(raw)`.  The textual extraction is a property of the
remote header and is part of the modelled response; crucially it is PARTIAL:
`decodeURIComponent` throws a `URIError` on a malformed percent-encoding
(e.g. a name containing a bare `%`), and that throw aborts `handleFile`. -/
inductive NameOutcome where
  | absent           -- header missing or the regex did not match (`raw` null)
  | ok (nm : String) -- `decodeURIComponent(raw)` returned `nm`
  | uriError         -- `decodeURIComponent(raw)` threw (V8: "URI malformed")
deriving DecidableEq, Repr

/-- The HEAD probe response (`headUrl` returns `null` on a network error,
modelled by `Option` at the use site). -/
structure HeadResult where
  ok : Bool
  parsedName : NameOutcome
  contentLength : Option String
deriving DecidableEq, Repr

/-- One member of the folder listing JSON (`{id, name, size}`); `size` is
`none` when the member carries no size field. -/
structure FileEntry where
  id : String
  name : String
  size : Option Nat
deriving DecidableEq, Repr

/-- The folder-listing fetch response.  `filesField = none` covers both a
falsy JSON body and a `files` field that is absent or not an array;
`jsonOk = false` models `resp.json()` rejecting (malformed body). -/
structure FolderResp where
  ok : Bool
  status : Nat
  jsonOk : Bool
  filesField : Option (List FileEntry)
deriving DecidableEq, Repr

/-- The oracle for one run: configuration (the script's environment
variables) and the behaviour of every external collaborator.

* `sendThrows t` — whether the `fetch` inside `sendTelegramMessage` rejects
  for the message text `t` (a non-ok Telegram reply is only logged by the
  script, so it needs no modelling);
* `wgetStatus u` — exit status of `wget` for source url `u` (0 = success);
* `statSize p` — `fs.statSync(p).size` for a path the run has produced;
* `osTmpDir`/`tmpSuffix` — `os.tmpdir()` and the random suffix chosen by
  `fs.mkdtempSync`;
* `maxUploadBytes` — the numeric value of `MAX_UPLOAD_BYTES` when set. -/
structure World where
  pixelLink : Option String
  tgToken : Option String
  tgChatId : Option String
  maxUploadBytes : Option Nat
  sendThrows : String → Bool
  headResp : Option HeadResult
  wgetStatus : String → Nat
  statSize : String → Nat
  folderResp : Option FolderResp
  zipStatus : Nat
  curlStatus : Nat
  osTmpDir : String
  tmpSuffix : String

/-! ## Small string helpers translated from the script -/

/-- `https://pixeldrain.com/api/file/${id}` -/
def fileApiUrl (id : String) : String := "https://pixeldrain.com/api/file/" ++ id

/-- `https://pixeldrain.com/api/list/${id}` -/
def folderApiUrl (id : String) : String := "https://pixeldrain.com/api/list/" ++ id

/-- `DEFAULT_MAX_BYTES = 1_900_000_000` -/
def DEFAULT_MAX_BYTES : Nat := 1900000000

/-- The character class of `escapeMarkdownV2`:
`/([_*[\]()~`>#+\-=|{}.!\\])/g` (backquote and braces written by code point
to keep the source file plain). -/
def mdSpecialChars : List Char :=
  ['_', '*', '[', ']', '(', ')', '~', Char.ofNat 96, '>', '#', '+', '-', '=',
   '|', Char.ofNat 123, Char.ofNat 125, '.', '!', '\\']

def mdSpecial (c : Char) : Bool := mdSpecialChars.contains c

/-- Character-list version of `escapeMarkdownV2`: every occurrence of a
special character is prefixed with a backslash. -/
def escChars : List Char → List Char
  | [] => []
  | c :: cs => if mdSpecial c then '\\' :: c :: escChars cs else c :: escChars cs

/-- `escapeMarkdownV2(s)` from the script. -/
def escapeMarkdownV2 (s : String) : String := ⟨escChars s.data⟩

/-- The inverse transformation applied by a MarkdownV2 consumer: a backslash
escapes the character after it.  (Not part of the script; used to state that
escaping is lossless, i.e. an escaped URL still denotes the URL.) -/
def unescChars : List Char → List Char
  | [] => []
  | [c] => [c]
  | c :: c2 :: rest =>
      if c = '\\' then c2 :: unescChars rest else c :: unescChars (c2 :: rest)

def unescapeMdV2 (s : String) : String := ⟨unescChars s.data⟩

/-- `Array.prototype.join(sep)`. -/
def joinSep (sep : String) : List String → String
  | [] => ""
  | [x] => x
  | x :: y :: ys => x ++ sep ++ joinSep sep (y :: ys)

/-- `s` contains `sub` as a contiguous substring. -/
def strContains (hay sub : String) : Prop :=
  ∃ a b : List Char, hay.data = a ++ sub.data ++ b

/-! ## Message texts (verbatim templates from the script) -/

def startMsg : String := "🚀 Received Pixeldrain link, starting process..."

/-- `sizeText` is the interpolation `${size}` of the probed JS number. -/
def fileTooBigMsg (filename sizeText url : String) : String :=
  "❗ File *" ++ escapeMarkdownV2 filename ++ "* is too large to auto-upload ("
    ++ sizeText ++ " bytes). Here is the direct download URL:\n``"
    ++ escapeMarkdownV2 url ++ "``\n\nUse wget on your machine to download it."

def downloadingMsg (filename : String) : String :=
  "⬇️ Downloading *" ++ escapeMarkdownV2 filename ++ "*..."

def postTooBigMsg (url : String) : String :=
  "❗ After download file exceeds max allowed size. Not uploading. Direct URL:\n``"
    ++ escapeMarkdownV2 url ++ "``"

def uploadingMsg (filename : String) : String :=
  "⬆️ Uploading *" ++ escapeMarkdownV2 filename
    ++ "* to Telegram (this may take a while)..."

def uploadedMsg (filename : String) : String :=
  "✅ Uploaded *" ++ escapeMarkdownV2 filename ++ "* successfully."

def fileCaption (filename : String) : String :=
  "Uploaded from Pixeldrain: " ++ filename

def folderFailMsg (folderId : String) (status : Nat) : String :=
  "Failed to read folder " ++ folderId ++ ": HTTP " ++ toString status

def emptyFolderMsg : String := "Folder appears empty or returned no files."

/-- `${f.size || 'unknown'}` — a missing or zero size prints as `unknown`. -/
def sizeText : Option Nat → String
  | some n => if n = 0 then "unknown" else toString n
  | none => "unknown"

/-- One line of the folder link list:
`- ${esc(f.name)} (${f.size || 'unknown'} bytes)\n``${esc(fileApiUrl(f.id))}``
-/
def folderLine (f : FileEntry) : String :=
  "- " ++ escapeMarkdownV2 f.name ++ " (" ++ sizeText f.size ++ " bytes)\n``"
    ++ escapeMarkdownV2 (fileApiUrl f.id) ++ "``"

def bigFolderMsg (count totalBytes : Nat) (preview : String) : String :=
  "❗ Folder contains " ++ toString count ++ " files, total size "
    ++ toString totalBytes
    ++ " bytes which is larger than allowed upload limit. Sending direct links instead:\n\n"
    ++ preview ++ "\n\n(Only first 20 shown)"

def dlFolderMsg (count : Nat) : String :=
  "⬇️ Downloading " ++ toString count ++ " file(s) and preparing zip..."

def zipTooBigMsg (size : Nat) : String :=
  "❗ Zip archive size " ++ toString size
    ++ " bytes exceeds the allowed upload size. Sending direct links instead."

def memberLinkMsg (f : FileEntry) : String :=
  escapeMarkdownV2 f.name ++ " — ``" ++ escapeMarkdownV2 (fileApiUrl f.id) ++ "``"

def uploadingZipMsg (size : Nat) : String :=
  "⬆️ Uploading zip (" ++ toString size ++ " bytes) to Telegram..."

def zipDoneMsg : String := "✅ Folder uploaded as zip."

def folderCaption (folderId : String) : String := "Pixeldrain folder " ++ folderId

def errNotifMsg (message : String) : String :=
  "❌ Error in upload script: " ++ escapeMarkdownV2 message

def noLinkErr : String := "No pixeldrain link found in PIXEL_LINK."

/-! ## Primitive effectful steps -/

def emitEv (e : Ev) : Res Unit := ⟨[e], .ok ()⟩

def throwR (msg : String) : Res Unit := ⟨[], .error ⟨msg⟩⟩

/-- `sendTelegramMessage`: the POST is attempted; if the underlying `fetch`
(or its `.json()`) rejects, the rejection propagates to the caller.  A non-ok
Telegram reply is only logged, so completion is otherwise normal. -/
def sendTG (w : World) (text : String) : Res Unit :=
  ⟨[.tgSend text], if w.sendThrows text then .error ⟨"fetch failed"⟩ else .ok ()⟩

/-- `downloadWithWget` via `runCmd('wget', ['-c', '-O', outPath, url])`: a
non-zero exit status throws `` `${cmd} ${args.join(' ')} exited ${status}` ``. -/
def downloadWithWget (w : World) (url outPath : String) : Res Unit :=
  ⟨[.wgetRun url outPath],
   if w.wgetStatus url = 0 then .ok ()
   else .error ⟨"wget -c -O " ++ outPath ++ " " ++ url ++ " exited "
                ++ toString (w.wgetStatus url)⟩⟩

/-- `runCmd('zip', ['-r', zipPath, '.'], { cwd: tmpDir })`. -/
def runZipCmd (w : World) (zipPath cwd : String) : Res Unit :=
  ⟨[.zipRun zipPath cwd],
   if w.zipStatus = 0 then .ok ()
   else .error ⟨"zip -r " ++ zipPath ++ " . exited " ++ toString w.zipStatus⟩⟩

/-- `uploadDocumentCurl`: non-zero curl exit throws `` `curl exited with ...` ``. -/
def uploadDocumentCurl (w : World) (filePath caption : String) : Res Unit :=
  ⟨[.curlUpload filePath caption],
   if w.curlStatus = 0 then .ok ()
   else .error ⟨"curl exited with " ++ toString w.curlStatus⟩⟩

/-- A `try { fs.…Sync(…) } catch {}` cleanup step: the operation is attempted
and any failure (e.g. the resource is already absent) is swallowed, so the
step always completes. -/
def cleanup (e : Ev) : Res Unit := ⟨[e], .ok ()⟩

/-! ## Metadata probe results -/

/-- A JavaScript number as produced by `Number(string)`: `NaN`, an infinity,
or a finite value.  Finite values are represented exactly as rationals (the
string grammar only produces values with finite decimal expansions); the
IEEE-754 rounding JS applies beyond 2^53 significant bits is not modelled. -/
inductive JsNum where
  | nan
  | posInf
  | negInf
  | num (q : ℚ)
deriving DecidableEq, Repr

/-- The code points `ToNumber` strips from both ends of a string
(JS `WhiteSpace` and `LineTerminator`). -/
def jsWhitespace (c : Char) : Bool :=
  c.toNat = 9 || c.toNat = 10 || c.toNat = 11 || c.toNat = 12 ||
  c.toNat = 13 || c.toNat = 32 || c.toNat = 160 || c.toNat = 8232 ||
  c.toNat = 8233 || c.toNat = 65279

def trimWs (l : List Char) : List Char :=
  ((l.dropWhile jsWhitespace).reverse.dropWhile jsWhitespace).reverse

def isDigitCh (c : Char) : Bool := 48 ≤ c.toNat && c.toNat ≤ 57

/-- Value of a hexadecimal digit, if any (both cases). -/
def hexVal? (c : Char) : Option Nat :=
  if 48 ≤ c.toNat && c.toNat ≤ 57 then some (c.toNat - 48)
  else if 97 ≤ c.toNat && c.toNat ≤ 102 then some (c.toNat - 87)
  else if 65 ≤ c.toNat && c.toNat ≤ 70 then some (c.toNat - 55)
  else none

/-- Value of a non-empty all-digit string in base `b` (digits below `b`). -/
def radixValAux (b : Nat) : List Char → Nat → Option Nat
  | [], acc => some acc
  | c :: cs, acc =>
      match hexVal? c with
      | some v => if v < b then radixValAux b cs (acc * b + v) else none
      | none => none

def radixVal? (b : Nat) (l : List Char) : Option Nat :=
  if l.isEmpty then none else radixValAux b l 0

/-- Longest decimal-digit run at the front, and the rest. -/
def spanDigits : List Char → List Char × List Char
  | [] => ([], [])
  | c :: cs =>
      if isDigitCh c then
        let (d, r) := spanDigits cs
        (c :: d, r)
      else ([], c :: cs)

def digitsVal (l : List Char) : Nat :=
  l.foldl (fun n c => n * 10 + (c.toNat - 48)) 0

/-- Exponent part of a decimal literal; the whole rest of the string must be
consumed (`[eE] [+-]? digits` or nothing). -/
def parseExp : List Char → Option Int
  | [] => some 0
  | c :: cs =>
      if c = 'e' || c = 'E' then
        let p : Int × List Char :=
          match cs with
          | '+' :: r => (1, r)
          | '-' :: r => (-1, r)
          | r => (1, r)
        let (d, rest) := spanDigits p.2
        if d.isEmpty || !rest.isEmpty then none
        else some (p.1 * (digitsVal d : Int))
      else none

/-- `mantissa / 10^fracLen * 10^e`, exactly (built with `mkRat`, which
normalizes the fraction). -/
def decValue (mantissa fracLen : Nat) (e : Int) : ℚ :=
  match e with
  | .ofNat k => mkRat (mantissa * 10 ^ k) (10 ^ fracLen)
  | .negSucc k => mkRat mantissa (10 ^ fracLen * 10 ^ (k + 1))

/-- Unsigned decimal literal: `digits [. digits] [exp]` or `. digits [exp]`,
consuming the whole string. -/
def parseDec (l : List Char) : Option ℚ :=
  let (ip, r1) := spanDigits l
  match r1 with
  | '.' :: r2 =>
      let (fp, r3) := spanDigits r2
      if ip.isEmpty && fp.isEmpty then none
      else
        match parseExp r3 with
        | some e =>
            some (decValue (digitsVal ip * 10 ^ fp.length + digitsVal fp)
              fp.length e)
        | none => none
  | _ =>
      if ip.isEmpty then none
      else
        match parseExp r1 with
        | some e => some (decValue (digitsVal ip) 0 e)
        | none => none

/-- Unsigned numeric literal: `Infinity`, a `0x`/`0o`/`0b` integer literal,
or a decimal literal. -/
def parseUnsigned (l : List Char) : Option JsNum :=
  if l = "Infinity".data then some .posInf
  else
    match l with
    | '0' :: c :: rest =>
        if c = 'x' || c = 'X' then (radixVal? 16 rest).map (fun n => .num n)
        else if c = 'o' || c = 'O' then (radixVal? 8 rest).map (fun n => .num n)
        else if c = 'b' || c = 'B' then (radixVal? 2 rest).map (fun n => .num n)
        else (parseDec l).map .num
    | _ => (parseDec l).map .num

/-- After a sign only `Infinity` or a decimal literal may follow (JS forbids
signed `0x`/`0o`/`0b` literals). -/
def parseSignedTail (l : List Char) : Option JsNum :=
  if l = "Infinity".data then some .posInf
  else (parseDec l).map .num

/-- `Number(string)` (ECMAScript `ToNumber` on a string): trim whitespace,
empty is `+0`, otherwise parse an optionally signed numeric literal;
anything else is `NaN`. -/
def jsNumber (l : List Char) : JsNum :=
  let t := trimWs l
  if t.isEmpty then .num 0
  else
    match t with
    | '+' :: r =>
        match parseSignedTail r with
        | some v => v
        | none => .nan
    | '-' :: r =>
        match parseSignedTail r with
        | some .posInf => .negInf
        | some (.num q) => .num (-q)
        | _ => .nan
    | _ =>
        match parseUnsigned t with
        | some v => v
        | none => .nan

/-- JS truthiness of a number: `NaN`, `0` and `-0` are falsy. -/
def jsTruthy : JsNum → Bool
  | .nan => false
  | .num q => decide (q ≠ 0)
  | _ => true

/-- `size > maxBytes` for a JS number against the natural budget. -/
def jsGtNat : JsNum → Nat → Bool
  | .nan, _ => false
  | .posInf, _ => true
  | .negInf, _ => false
  | .num q, m => decide ((m : ℚ) < q)

/-- `${size}` — JS number-to-string.  Finite values print in exact positional
decimal; this matches JS for every value `jsNumber` can produce below 1e21
(the exponential display JS switches to at 1e21, and the truncation fuel for
non-terminating expansions, concern only values the parser never yields). -/
def fracDigitsAux : Nat → Nat → Nat → List Char
  | 0, _, _ => []
  | _ + 1, 0, _ => []
  | fuel + 1, r, d => Char.ofNat (48 + r * 10 / d) :: fracDigitsAux fuel (r * 10 % d) d

def ratToDecString (q : ℚ) : String :=
  let sign := if q.num < 0 then "-" else ""
  let n := q.num.natAbs
  let ipart := n / q.den
  let r := n % q.den
  if r = 0 then sign ++ toString ipart
  else sign ++ toString ipart ++ "." ++ String.mk (fracDigitsAux q.den r q.den)

def jsNumToString : JsNum → String
  | .nan => "NaN"
  | .posInf => "Infinity"
  | .negInf => "-Infinity"
  | .num q => ratToDecString q

/-- `if (len) size = Number(len)`: an absent or empty content-length header
leaves the size `null` (`none`); otherwise it is parsed as a JS number
(possibly `NaN`). -/
def parseLen : Option String → Option JsNum
  | none => none
  | some s => if s.data.isEmpty then none else some (jsNumber s.data)

/-- Does the display-name extraction throw?  Only a successful probe whose
content-disposition name decodes with a `URIError` (line 88) does. -/
def nameThrows (w : World) : Bool :=
  match w.headResp with
  | some h =>
      h.ok && (match h.parsedName with | .uriError => true | _ => false)
  | none => false

/-- The display name after a non-throwing probe (`filename` in `handleFile`):
the decoded content-disposition name when the probe succeeded and the header
matched, otherwise the synthesized `pixeldrain-<id>`. -/
def probedName (w : World) (fileId : String) : String :=
  match w.headResp with
  | some h =>
      if h.ok then
        match h.parsedName with
        | .ok nm => nm
        | _ => "pixeldrain-" ++ fileId
      else "pixeldrain-" ++ fileId
  | none => "pixeldrain-" ++ fileId

/-- The probed size (`size` in `handleFile`): `null` unless the probe
succeeded and carried a non-empty content-length, which is then parsed by
`Number` (possibly to `NaN`). -/
def probedSize (w : World) : Option JsNum :=
  match w.headResp with
  | some h => if h.ok then parseLen h.contentLength else none
  | none => none

/-- The pre-download budget gate `size && size > maxBytes`: `size` must be a
truthy JS number (not `null`, `NaN` or `0`) strictly above the budget. -/
def sizeGate (size : Option JsNum) (maxBytes : Nat) : Bool :=
  match size with
  | some v => jsTruthy v && jsGtNat v maxBytes
  | none => false

/-- `filename.replace(/\//g, '_')` (single-file path). -/
def replaceSlash (s : String) : String :=
  ⟨s.data.map fun c => if c = '/' then '_' else c⟩

/-- `f.name.replace(/[\/\\]/g, '_')` (folder member path). -/
def replaceSlashes (s : String) : String :=
  ⟨s.data.map fun c => if c = '/' || c = '\\' then '_' else c⟩

/-- `fs.mkdtempSync(path.join(os.tmpdir(), 'pixeldrain-'))`. -/
def mkTmpDir (w : World) : String := w.osTmpDir ++ "/pixeldrain-" ++ w.tmpSuffix

/-- `path.join(os.tmpdir(), `pixeldrain-folder-${folderId}.zip`)` — note:
a sibling of the staging directory, not inside it. -/
def zipFilePath (w : World) (folderId : String) : String :=
  w.osTmpDir ++ "/pixeldrain-folder-" ++ folderId ++ ".zip"

/-- Destination path of the single-file download. -/
def outFilePath (w : World) (fileId : String) : String :=
  mkTmpDir w ++ "/" ++ replaceSlash (probedName w fileId)

/-- `json.files.reduce((s, f) => s + (f.size || 0), 0)` — a missing (or zero)
member size contributes 0. -/
def totalSize (files : List FileEntry) : Nat :=
  files.foldl (fun s f => s + f.size.getD 0) 0

/-! ## The chunked link sender (`handleFolder`'s for-loop over `lines`) -/

/-- The message-splitting loop of `handleFolder`, verbatim: flush the current
chunk when adding the next line would push the running length over 3000, and
send the final chunk if non-empty. -/
def chunkLoop (w : World) : List String → List String → Nat → Res Unit
  | [], chunk, _ =>
      if chunk.isEmpty then Res.pureU else sendTG w (joinSep "\n\n" chunk)
  | line :: rest, chunk, curLen =>
      if 3000 < curLen + line.length then
        Res.seq (sendTG w (joinSep "\n\n" chunk))
          (chunkLoop w rest [line] line.length)
      else chunkLoop w rest (chunk ++ [line]) (curLen + line.length)

/-- Pure mirror of `chunkLoop`: the successive chunks it sends. -/
def chunkAux : List String → List String → Nat → List (List String)
  | [], chunk, _ => if chunk.isEmpty then [] else [chunk]
  | line :: rest, chunk, curLen =>
      if 3000 < curLen + line.length then chunk :: chunkAux rest [line] line.length
      else chunkAux rest (chunk ++ [line]) (curLen + line.length)

/-- The chunks produced for a given line list (loop entered with `[]`, `0`). -/
def chunkLines (lines : List String) : List (List String) := chunkAux lines [] 0

/-- Combined length of a chunk's lines, as accounted by the loop (the two
`\n\n` joiner characters between lines are not counted). -/
def sumLen (chunk : List String) : Nat := (chunk.map String.length).sum

/-! ## The two handlers -/

/-- `handleFile(token, chat_id, fileId, maxBytes)`. -/
def handleFile (w : World) (fileId : String) (maxBytes : Nat) : Res Unit :=
  let url := fileApiUrl fileId
  Res.seq (emitEv (.httpHead url))
    (if nameThrows w then
      -- `decodeURIComponent(raw)` throws at line 88, before the size gate,
      -- before any staging or download; the URIError propagates
      throwR "URI malformed"
    else
      let filename := probedName w fileId
      let size := probedSize w
      if sizeGate size maxBytes then
        -- size known and over budget: one fallback message, no download
        sendTG w (fileTooBigMsg filename (jsNumToString (size.getD .nan)) url)
      else
      let tmpDir := mkTmpDir w
      let outPath := outFilePath w fileId
      Res.seq (emitEv (.mkdtemp tmpDir))
        (Res.withFinal
          (Res.seq (sendTG w (downloadingMsg filename))
            (Res.seq (downloadWithWget w url outPath)
              (if maxBytes < w.statSize outPath then
                sendTG w (postTooBigMsg url)
              else
                Res.seq (sendTG w (uploadingMsg filename))
                  (Res.seq (uploadDocumentCurl w outPath (fileCaption filename))
                    (sendTG w (uploadedMsg filename))))))
          (Res.seq (cleanup (.unlink outPath)) (cleanup (.rmdirRec tmpDir)))))

/-- The sequential download loop of `handleFolder`. -/
def downloadAll (w : World) (tmpDir : String) : List FileEntry → Res Unit
  | [] => Res.pureU
  | f :: fs =>
      Res.seq (downloadWithWget w (fileApiUrl f.id)
                 (tmpDir ++ "/" ++ replaceSlashes f.name))
        (downloadAll w tmpDir fs)

/-- The per-member link loop of `handleFolder`'s post-zip fallback. -/
def sendMemberLinks (w : World) : List FileEntry → Res Unit
  | [] => Res.pureU
  | f :: fs => Res.seq (sendTG w (memberLinkMsg f)) (sendMemberLinks w fs)

/-- `handleFolder(token, chat_id, folderId, maxBytes)`. -/
def handleFolder (w : World) (folderId : String) (maxBytes : Nat) : Res Unit :=
  let api := folderApiUrl folderId
  Res.seq (emitEv (.httpGet api))
    (match w.folderResp with
     | none => throwR "fetch failed"      -- `await fetch(api)` rejected
     | some resp =>
       if !resp.ok then
         -- non-ok HTTP status: notify and return normally
         sendTG w (folderFailMsg folderId resp.status)
       else if !resp.jsonOk then throwR "Unexpected end of JSON input"
       else
         match resp.filesField with
         | none => sendTG w emptyFolderMsg
         | some files =>
           if files.isEmpty then sendTG w emptyFolderMsg
           else
             let totalBytes := totalSize files
             if maxBytes < totalBytes then
               -- listed total over budget: links instead of any download
               let lines := files.map folderLine
               Res.seq
                 (sendTG w (bigFolderMsg files.length totalBytes
                    (joinSep "\n\n" (lines.take 20))))
                 (chunkLoop w lines [] 0)
             else
               let tmpDir := mkTmpDir w
               let zipPath := zipFilePath w folderId
               Res.seq (emitEv (.mkdtemp tmpDir))
                 (Res.withFinal
                   (Res.seq (sendTG w (dlFolderMsg files.length))
                     (Res.seq (downloadAll w tmpDir files)
                       (Res.seq (runZipCmd w zipPath tmpDir)
                         (if maxBytes < w.statSize zipPath then
                           -- archive over budget: links; the zip is NOT removed here
                           Res.seq (sendTG w (zipTooBigMsg (w.statSize zipPath)))
                             (sendMemberLinks w files)
                         else
                           Res.seq (sendTG w (uploadingZipMsg (w.statSize zipPath)))
                             (Res.seq (uploadDocumentCurl w zipPath
                                (folderCaption folderId))
                               (Res.seq (sendTG w zipDoneMsg)
                                 (cleanup (.unlink zipPath))))))))
                   (cleanup (.rmdirRec tmpDir))))

/-! ## Link classification (the two regexes, as executed by `String.match`) -/

/-- `[A-Za-z0-9_-]`, the capture-group character class. -/
def isIdChar (c : Char) : Bool := c.isAlphanum || c = '_' || c = '-'

/-- Case-insensitive literal match of `pat` at the front of `s`, returning
the rest (the regexes carry the `i` flag; pattern chars are lowercase). -/
def stripCI : List Char → List Char → Option (List Char)
  | [], s => some s
  | _ :: _, [] => none
  | p :: ps, c :: cs => if c.toLower = p then stripCI ps cs else none

/-- Match `https?://(www\.)?pixeldrain\.com/<tag>/([A-Za-z0-9_-]+)` at the
given position, returning the captured id.  The two optional groups commit
deterministically: whenever they consume input, the non-consuming alternative
would fail immediately (`s` vs `:`, `w` vs `p`), so no backtracking is needed. -/
def matchPixelAt (tag : Char) (s : List Char) : Option String :=
  match stripCI "http".data s with
  | none => none
  | some s1 =>
    let s2 := match stripCI "s".data s1 with | some t => t | none => s1
    match stripCI "://".data s2 with
    | none => none
    | some s3 =>
      let s4 := match stripCI "www.".data s3 with | some t => t | none => s3
      match stripCI ("pixeldrain.com/".data ++ [tag, '/']) s4 with
      | none => none
      | some s5 =>
        let idChars := s5.takeWhile isIdChar
        if idChars.isEmpty then none else some ⟨idChars⟩

/-- `link.match(RE)`: unanchored search, leftmost match wins; returns the
captured id (`m[1]`). -/
def searchPixel (tag : Char) : List Char → Option String
  | [] => none
  | c :: cs =>
      match matchPixelAt tag (c :: cs) with
      | some id => some id
      | none => searchPixel tag cs

/-! ## The main IIFE -/

/-- JS truthiness test for an environment variable: unset or empty is falsy. -/
def envFalsy : Option String → Bool
  | none => true
  | some s => s.data.isEmpty

/-- The body of the top-level `try`: read configuration, send the start
notification, classify the link and dispatch. -/
def mainBody (w : World) : Res Unit :=
  let maxBytes := w.maxUploadBytes.getD DEFAULT_MAX_BYTES
  if envFalsy w.pixelLink then throwR "PIXEL_LINK environment variable missing"
  else if envFalsy w.tgToken then
    throwR "TELEGRAM_BOT_TOKEN environment variable missing"
  else if envFalsy w.tgChatId then
    throwR "TELEGRAM_CHAT_ID environment variable missing"
  else
    let link := w.pixelLink.getD ""
    Res.seq (sendTG w startMsg)
      (match searchPixel 'u' link.data with
       | some fileId => handleFile w fileId maxBytes
       | none =>
         match searchPixel 'l' link.data with
         | some folderId => handleFolder w folderId maxBytes
         | none => throwR noLinkErr)

/-- The `catch` block's best-effort notification: attempted only when both
messaging credentials are truthy, and wrapped in `try {} catch {}` so its own
failure is swallowed. -/
def crashHandler (w : World) (e : JsErr) : Res Unit :=
  Res.catchAll
    (if envFalsy w.tgToken || envFalsy w.tgChatId then Res.pureU
     else sendTG w (errNotifMsg e.message))

/-- A whole run: the event trace and the process exit code (0 = the `try`
body completed, 1 = `process.exit(1)` from the `catch` block, which first
runs the best-effort notification). -/
def runScript (w : World) : List Ev × Nat :=
  match mainBody w with
  | ⟨evs, .ok _⟩ => (evs, 0)
  | ⟨evs, .error e⟩ => (evs ++ (crashHandler w e).evs, 1)

/-- All sends succeed at the transport level (the normal-operation regime the
spec's per-path statements presuppose). -/
def sendsOk (w : World) : Prop := ∀ t, w.sendThrows t = false

/-! ## Helper predicates over traces (verification vocabulary) -/

/-- Does the event remove the filesystem path `p`? -/
def evRemoves (p : String) : Ev → Bool
  | .unlink q => q == p
  | .rmdirRec q => q == p
  | _ => false

/-- Does any event of the trace remove the path `p`? -/
def removesPath (evs : List Ev) (p : String) : Bool := evs.any (evRemoves p)

/-- Does the trace contain an upload attempt? -/
def hasCurl (evs : List Ev) : Bool :=
  evs.any fun e => match e with | .curlUpload _ _ => true | _ => false

/-- `s` begins with `pre` (computable, used on concrete paths). -/
def dataStarts (pre s : String) : Bool := s.data.take pre.data.length == pre.data

/-! ## Concrete worlds for witnesses and counterexamples -/

/-- A fully healthy single-file run: file link, all transports succeed,
probed size 500 against a 1000-byte budget. -/
def wBase : World :=
  { pixelLink := some "https://pixeldrain.com/u/abc123"
    tgToken := some "BOT"
    tgChatId := some "42"
    maxUploadBytes := some 1000
    sendThrows := fun _ => false
    headResp := some { ok := true, parsedName := .ok "file.bin",
                       contentLength := some "500" }
    wgetStatus := fun _ => 0
    statSize := fun _ => 500
    folderResp := none
    zipStatus := 0
    curlStatus := 0
    osTmpDir := "/tmp"
    tmpSuffix := "ab12cd" }

/-- Probe reports 5000 bytes against a 1000-byte budget. -/
def wKnownBig : World :=
  { wBase with headResp := some { ok := true, parsedName := .ok "file.bin",
                                  contentLength := some "5000" } }

/-- Probe fails entirely (size unknown); the downloaded file turns out to be
5000 bytes against a 1000-byte budget. -/
def wUnknownBig : World :=
  { wBase with headResp := none, statSize := fun _ => 5000 }

/-- Probe succeeds but reports content-length "0". -/
def wZeroLen : World :=
  { wBase with headResp := some { ok := true, parsedName := .ok "file.bin",
                                  contentLength := some "0" } }

/-- Probe succeeds, reports 5000 bytes, but the content-disposition name has
a malformed percent-encoding: `decodeURIComponent` throws. -/
def wNameThrowBig : World :=
  { wBase with headResp := some { ok := true, parsedName := .uriError,
                                  contentLength := some "5000" } }

/-- Probe succeeds with a throwing name and no content-length. -/
def wNameThrowUnknown : World :=
  { wBase with headResp := some { ok := true, parsedName := .uriError,
                                  contentLength := none } }

/-- Probe succeeds with a throwing name and content-length "0". -/
def wNameThrowZero : World :=
  { wBase with headResp := some { ok := true, parsedName := .uriError,
                                  contentLength := some "0" } }

/-- Folder listing with two members. -/
def entry1 : FileEntry := { id := "id1", name := "a.txt", size := some 700 }

def entry2 : FileEntry := { id := "id2", name := "b.txt", size := some 200 }

def folderRespOk : FolderResp :=
  { ok := true, status := 200, jsonOk := true, filesField := some [entry1, entry2] }

/-- Folder whose listed total (900) exceeds a 600-byte budget. -/
def wFolderBig : World :=
  { wBase with pixelLink := some "https://pixeldrain.com/l/fold01"
               maxUploadBytes := some 600
               folderResp := some folderRespOk }

/-- Folder fetch answers HTTP 500. -/
def wFetchFail : World :=
  { wBase with pixelLink := some "https://pixeldrain.com/l/fold01"
               folderResp := some { ok := false, status := 500, jsonOk := true,
                                    filesField := none } }

/-- A link matching neither pattern. -/
def wUnrec : World :=
  { wBase with pixelLink := some "https://example.com/data/file.bin" }

/-- Single-file run whose download fails with wget status 8. -/
def wDlFail : World :=
  { wBase with headResp := none, wgetStatus := fun _ => 8 }

/-- Folder run (total 900 ≤ 1000) whose produced zip weighs 5000 bytes. -/
def wZipBig : World :=
  { wBase with pixelLink := some "https://pixeldrain.com/l/zipbig"
               folderResp := some folderRespOk
               statSize := fun p =>
                 if p = "/tmp/pixeldrain-folder-zipbig.zip" then 5000 else 100 }

/-- Same oversized-zip scenario on another folder id (cleanup claim). -/
def wZipBig2 : World :=
  { wBase with pixelLink := some "https://pixeldrain.com/l/fold66"
               folderResp := some folderRespOk
               statSize := fun p =>
                 if p = "/tmp/pixeldrain-folder-fold66.zip" then 5000 else 100 }

/-- Another link matching neither pattern. -/
def wUnrec2 : World :=
  { wBase with pixelLink := some "https://example.org/nothing-here" }

/-- Two 1500-character lines: their joined text (3002 chars) exceeds the 3000
limit, yet the loop emits them as a single message. -/
def line1500a : String := ⟨List.replicate 1500 'a'⟩

def line1500b : String := ⟨List.replicate 1500 'b'⟩

def cexLines : List String := [line1500a, line1500b]

/-! ## Basic reduction lemmas for the interpreter -/

@[simp] theorem Res.seq_ok (evs : List Ev) (u : Unit) (y : Res α) :
    Res.seq ⟨evs, .ok u⟩ y = ⟨evs ++ y.evs, y.res⟩ := rfl

@[simp] theorem Res.seq_err (evs : List Ev) (e : JsErr) (y : Res α) :
    Res.seq ⟨evs, .error e⟩ y = ⟨evs, .error e⟩ := rfl

/-! ## Generic lemmas: substrings, escaping, joining -/

theorem strContains_self (s : String) : strContains s s :=
  ⟨[], [], by simp⟩

theorem strContains_appendL {x s : String} (y : String) (h : strContains x s) :
    strContains (x ++ y) s := by
  obtain ⟨a, b, hab⟩ := h
  exact ⟨a, b ++ y.data, by simp [String.data_append, hab]⟩

theorem strContains_appendR {y s : String} (x : String) (h : strContains y s) :
    strContains (x ++ y) s := by
  obtain ⟨a, b, hab⟩ := h
  exact ⟨x.data ++ a, b, by simp [String.data_append, hab]⟩

theorem strContains_mid (p s q : String) : strContains (p ++ s ++ q) s :=
  strContains_appendL q (strContains_appendR p (strContains_self s))

/-- A member of a joined list is a substring of the joined string. -/
theorem strContains_joinSep (sep : String) :
    ∀ xs : List String, ∀ x ∈ xs, strContains (joinSep sep xs) x := by
  intro xs
  induction xs with
  | nil => intro x hx; cases hx
  | cons y ys ih =>
    intro x hx
    cases ys with
    | nil =>
      rcases List.mem_singleton.mp hx with rfl
      exact strContains_self x
    | cons z zs =>
      rcases List.mem_cons.mp hx with rfl | hx2
      · exact strContains_appendL _ (strContains_appendL _ (strContains_self x))
      · exact strContains_appendR _ (ih x hx2)

theorem mdSpecial_backslash : mdSpecial '\\' = true := by decide

/-- MarkdownV2 escaping is lossless: un-escaping an escaped string returns the
original, so an escaped URL embedded in a message still denotes that URL. -/
theorem unescChars_escChars (l : List Char) : unescChars (escChars l) = l := by
  induction l with
  | nil => rfl
  | cons c cs ih =>
    by_cases h : mdSpecial c = true
    · simp only [escChars, h, if_true]
      simp only [unescChars, if_pos rfl, ih]
      simp
    · simp only [escChars, h, if_false]
      have hne : c ≠ '\\' := by
        intro e
        rw [e, mdSpecial_backslash] at h
        exact h rfl
      cases hcs : escChars cs with
      | nil =>
        rw [hcs] at ih
        simp only [unescChars] at ih ⊢
        rw [← ih]
      | cons d ds =>
        rw [hcs] at ih
        simp only [unescChars, if_neg hne]
        rw [ih]

theorem unescape_escape (s : String) : unescapeMdV2 (escapeMarkdownV2 s) = s :=
  String.ext (by simp [unescapeMdV2, escapeMarkdownV2, unescChars_escChars])

/-- `foldl`-with-addition expressed as the sum of the mapped list (bridges the
script's `reduce` to the spec's "sum of each member's reported size"). -/
theorem totalSize_eq_sum (files : List FileEntry) :
    totalSize files = (files.map fun f => f.size.getD 0).sum := by
  have h : ∀ (l : List FileEntry) (n : Nat),
      l.foldl (fun s f => s + f.size.getD 0) n = n + (l.map fun f => f.size.getD 0).sum := by
    intro l
    induction l with
    | nil => intro n; simp
    | cons f fs ih =>
      intro n
      simp only [List.foldl_cons, List.map_cons, List.sum_cons, ih]
      omega
  simpa using h files 0

/-! ## The chunking loop: pure characterisation -/

/-- The chunks flushed by the loop concatenate back to exactly the lines fed
in: order is preserved and no line is ever split across chunks. -/
theorem chunkAux_join :
    ∀ (rest chunk : List String) (curLen : Nat),
      (chunkAux rest chunk curLen).flatten = chunk ++ rest := by
  intro rest
  induction rest with
  | nil =>
    intro chunk curLen
    simp only [chunkAux]
    by_cases h : chunk.isEmpty
    · simp [h, List.isEmpty_iff.mp h]
    · simp [h]
  | cons line rest ih =>
    intro chunk curLen
    simp only [chunkAux]
    by_cases h : 3000 < curLen + line.length
    · simp [h, ih]
    · simp [h, ih]

/-- Every chunk holding at least two lines has combined line length (joiners
not counted) at most 3000. -/
theorem chunkAux_bound :
    ∀ (rest chunk : List String) (curLen : Nat),
      curLen = sumLen chunk → (2 ≤ chunk.length → sumLen chunk ≤ 3000) →
      ∀ c ∈ chunkAux rest chunk curLen, 2 ≤ c.length → sumLen c ≤ 3000 := by
  intro rest
  induction rest with
  | nil =>
    intro chunk curLen _ hbound c hc
    simp only [chunkAux] at hc
    by_cases h : chunk.isEmpty
    · simp [h] at hc
    · simp [h] at hc
      exact hc ▸ hbound
  | cons line rest ih =>
    intro chunk curLen hlen hbound c hc
    simp only [chunkAux] at hc
    by_cases h : 3000 < curLen + line.length
    · rw [if_pos h] at hc
      rcases List.mem_cons.mp hc with rfl | hc2
      · exact hbound
      · refine ih [line] line.length (by simp [sumLen]) ?_ c hc2
        intro h2; simp at h2
    · rw [if_neg h] at hc
      refine ih (chunk ++ [line]) (curLen + line.length) ?_ ?_ c hc
      · simp [sumLen, hlen]
      · intro _
        have : sumLen (chunk ++ [line]) = curLen + line.length := by
          simp [sumLen, hlen]
        omega

/-- The effectful loop sends exactly the chunks of the pure mirror, in order,
when the transport does not fail. -/
theorem chunkLoop_eq (w : World) (hs : sendsOk w) :
    ∀ (rest chunk : List String) (curLen : Nat),
      chunkLoop w rest chunk curLen =
        ⟨(chunkAux rest chunk curLen).map (fun c => .tgSend (joinSep "\n\n" c)),
         .ok ()⟩ := by
  have hs' : ∀ t, w.sendThrows t = false := hs
  intro rest
  induction rest with
  | nil =>
    intro chunk curLen
    simp only [chunkLoop, chunkAux]
    by_cases h : chunk.isEmpty
    · simp [h, Res.pureU]
    · simp [h, sendTG, hs']
  | cons line rest ih =>
    intro chunk curLen
    simp only [chunkLoop, chunkAux]
    by_cases h : 3000 < curLen + line.length
    · simp [h, sendTG, hs', Res.seq, ih]
    · simp [h, ih]

/-! ## Trace shapes of the two inner loops of `handleFolder` -/

theorem downloadAll_trace (w : World) (tmpDir : String) :
    ∀ files : List FileEntry,
      (∀ f ∈ files, w.wgetStatus (fileApiUrl f.id) = 0) →
      downloadAll w tmpDir files =
        ⟨files.map (fun f =>
            .wgetRun (fileApiUrl f.id) (tmpDir ++ "/" ++ replaceSlashes f.name)),
         .ok ()⟩ := by
  intro files
  induction files with
  | nil => intro _; rfl
  | cons f fs ih =>
    intro h
    have hf := h f (List.mem_cons_self f fs)
    have hfs := fun g hg => h g (List.mem_cons_of_mem f hg)
    simp [downloadAll, downloadWithWget, hf, ih hfs, Res.seq]

theorem sendMemberLinks_trace (w : World) (hs : sendsOk w) :
    ∀ files : List FileEntry,
      sendMemberLinks w files =
        ⟨files.map (fun f => .tgSend (memberLinkMsg f)), .ok ()⟩ := by
  have hs' : ∀ t, w.sendThrows t = false := hs
  intro files
  induction files with
  | nil => rfl
  | cons f fs ih => simp [sendMemberLinks, sendTG, hs', ih, Res.seq]

/-! ## Branch lemmas for `handleFile` -/

/-- When the display-name decoding throws, `handleFile` aborts right after
the probe: no gate, no staging, no download, no notification. -/
theorem handleFile_name_throws (w : World) (fileId : String) (maxBytes : Nat)
    (hthrow : nameThrows w = true) :
    handleFile w fileId maxBytes =
      ⟨[.httpHead (fileApiUrl fileId)], .error ⟨"URI malformed"⟩⟩ := by
  simp [handleFile, hthrow, emitEv, throwR, Res.seq]

theorem handleFile_gate_taken (w : World) (fileId : String) (maxBytes : Nat)
    (hname : nameThrows w = false)
    (hg : sizeGate (probedSize w) maxBytes = true) :
    handleFile w fileId maxBytes =
      ⟨[.httpHead (fileApiUrl fileId),
        .tgSend (fileTooBigMsg (probedName w fileId)
          (jsNumToString ((probedSize w).getD .nan)) (fileApiUrl fileId))],
       (sendTG w (fileTooBigMsg (probedName w fileId)
          (jsNumToString ((probedSize w).getD .nan)) (fileApiUrl fileId))).res⟩ := by
  simp [handleFile, hname, hg, emitEv, Res.seq, sendTG]

theorem handleFile_wget_fail (w : World) (fileId : String) (maxBytes : Nat)
    (hname : nameThrows w = false)
    (hg : sizeGate (probedSize w) maxBytes = false) (hs : sendsOk w)
    (hw : w.wgetStatus (fileApiUrl fileId) ≠ 0) :
    handleFile w fileId maxBytes =
      ⟨[.httpHead (fileApiUrl fileId), .mkdtemp (mkTmpDir w),
        .tgSend (downloadingMsg (probedName w fileId)),
        .wgetRun (fileApiUrl fileId) (outFilePath w fileId),
        .unlink (outFilePath w fileId), .rmdirRec (mkTmpDir w)],
       .error ⟨"wget -c -O " ++ outFilePath w fileId ++ " " ++ fileApiUrl fileId
                ++ " exited " ++ toString (w.wgetStatus (fileApiUrl fileId))⟩⟩ := by
  have hs' : ∀ t, w.sendThrows t = false := hs
  simp [handleFile, hname, hg, emitEv, sendTG, hs', downloadWithWget, hw,
    Res.seq, Res.withFinal, cleanup]

theorem handleFile_post_too_big (w : World) (fileId : String) (maxBytes : Nat)
    (hname : nameThrows w = false)
    (hg : sizeGate (probedSize w) maxBytes = false) (hs : sendsOk w)
    (hw : w.wgetStatus (fileApiUrl fileId) = 0)
    (hbig : maxBytes < w.statSize (outFilePath w fileId)) :
    handleFile w fileId maxBytes =
      ⟨[.httpHead (fileApiUrl fileId), .mkdtemp (mkTmpDir w),
        .tgSend (downloadingMsg (probedName w fileId)),
        .wgetRun (fileApiUrl fileId) (outFilePath w fileId),
        .tgSend (postTooBigMsg (fileApiUrl fileId)),
        .unlink (outFilePath w fileId), .rmdirRec (mkTmpDir w)],
       .ok ()⟩ := by
  have hs' : ∀ t, w.sendThrows t = false := hs
  simp [handleFile, hname, hg, emitEv, sendTG, hs', downloadWithWget, hw,
    hbig, Res.seq, Res.withFinal, cleanup]

theorem handleFile_success (w : World) (fileId : String) (maxBytes : Nat)
    (hname : nameThrows w = false)
    (hg : sizeGate (probedSize w) maxBytes = false) (hs : sendsOk w)
    (hw : w.wgetStatus (fileApiUrl fileId) = 0)
    (hle : ¬ maxBytes < w.statSize (outFilePath w fileId))
    (hc : w.curlStatus = 0) :
    handleFile w fileId maxBytes =
      ⟨[.httpHead (fileApiUrl fileId), .mkdtemp (mkTmpDir w),
        .tgSend (downloadingMsg (probedName w fileId)),
        .wgetRun (fileApiUrl fileId) (outFilePath w fileId),
        .tgSend (uploadingMsg (probedName w fileId)),
        .curlUpload (outFilePath w fileId) (fileCaption (probedName w fileId)),
        .tgSend (uploadedMsg (probedName w fileId)),
        .unlink (outFilePath w fileId), .rmdirRec (mkTmpDir w)],
       .ok ()⟩ := by
  have hs' : ∀ t, w.sendThrows t = false := hs
  simp [handleFile, hname, hg, emitEv, sendTG, hs', downloadWithWget, hw,
    hle, hc, uploadDocumentCurl, Res.seq, Res.withFinal, cleanup]

theorem handleFile_curl_fail (w : World) (fileId : String) (maxBytes : Nat)
    (hname : nameThrows w = false)
    (hg : sizeGate (probedSize w) maxBytes = false) (hs : sendsOk w)
    (hw : w.wgetStatus (fileApiUrl fileId) = 0)
    (hle : ¬ maxBytes < w.statSize (outFilePath w fileId))
    (hc : w.curlStatus ≠ 0) :
    handleFile w fileId maxBytes =
      ⟨[.httpHead (fileApiUrl fileId), .mkdtemp (mkTmpDir w),
        .tgSend (downloadingMsg (probedName w fileId)),
        .wgetRun (fileApiUrl fileId) (outFilePath w fileId),
        .tgSend (uploadingMsg (probedName w fileId)),
        .curlUpload (outFilePath w fileId) (fileCaption (probedName w fileId)),
        .unlink (outFilePath w fileId), .rmdirRec (mkTmpDir w)],
       .error ⟨"curl exited with " ++ toString w.curlStatus⟩⟩ := by
  have hs' : ∀ t, w.sendThrows t = false := hs
  simp [handleFile, hname, hg, emitEv, sendTG, hs', downloadWithWget, hw,
    hle, hc, uploadDocumentCurl, Res.seq, Res.withFinal, cleanup]

/-! ## Branch lemmas for `handleFolder` -/

theorem handleFolder_fetch_rejected (w : World) (folderId : String)
    (maxBytes : Nat) (hresp : w.folderResp = none) :
    handleFolder w folderId maxBytes =
      ⟨[.httpGet (folderApiUrl folderId)], .error ⟨"fetch failed"⟩⟩ := by
  simp [handleFolder, hresp, emitEv, throwR, Res.seq]

theorem handleFolder_not_ok (w : World) (folderId : String) (maxBytes : Nat)
    (resp : FolderResp) (hresp : w.folderResp = some resp)
    (hok : resp.ok = false) :
    handleFolder w folderId maxBytes =
      ⟨[.httpGet (folderApiUrl folderId),
        .tgSend (folderFailMsg folderId resp.status)],
       (sendTG w (folderFailMsg folderId resp.status)).res⟩ := by
  simp [handleFolder, hresp, hok, emitEv, Res.seq, sendTG]

theorem handleFolder_empty (w : World) (folderId : String) (maxBytes : Nat)
    (resp : FolderResp) (hresp : w.folderResp = some resp)
    (hok : resp.ok = true) (hj : resp.jsonOk = true)
    (hf : resp.filesField = none ∨ resp.filesField = some []) :
    handleFolder w folderId maxBytes =
      ⟨[.httpGet (folderApiUrl folderId), .tgSend emptyFolderMsg],
       (sendTG w emptyFolderMsg).res⟩ := by
  rcases hf with hf | hf <;>
    simp [handleFolder, hresp, hok, hj, hf, emitEv, Res.seq, sendTG]

theorem handleFolder_too_big (w : World) (folderId : String) (maxBytes : Nat)
    (resp : FolderResp) (files : List FileEntry)
    (hresp : w.folderResp = some resp) (hok : resp.ok = true)
    (hj : resp.jsonOk = true) (hf : resp.filesField = some files)
    (hne : files ≠ []) (hbig : maxBytes < totalSize files) (hs : sendsOk w) :
    handleFolder w folderId maxBytes =
      ⟨.httpGet (folderApiUrl folderId) ::
        .tgSend (bigFolderMsg files.length (totalSize files)
          (joinSep "\n\n" ((files.map folderLine).take 20))) ::
        (chunkLines (files.map folderLine)).map
          (fun c => .tgSend (joinSep "\n\n" c)),
       .ok ()⟩ := by
  have hs' : ∀ t, w.sendThrows t = false := hs
  simp [handleFolder, hresp, hok, hj, hf, hne, hbig, emitEv, Res.seq, sendTG,
    hs', chunkLoop_eq w hs, chunkLines]

theorem handleFolder_zip_too_big (w : World) (folderId : String)
    (maxBytes : Nat) (resp : FolderResp) (files : List FileEntry)
    (hresp : w.folderResp = some resp) (hok : resp.ok = true)
    (hj : resp.jsonOk = true) (hf : resp.filesField = some files)
    (hne : files ≠ []) (hsmall : ¬ maxBytes < totalSize files) (hs : sendsOk w)
    (hwall : ∀ f ∈ files, w.wgetStatus (fileApiUrl f.id) = 0)
    (hz : w.zipStatus = 0)
    (hzbig : maxBytes < w.statSize (zipFilePath w folderId)) :
    handleFolder w folderId maxBytes =
      ⟨[.httpGet (folderApiUrl folderId), .mkdtemp (mkTmpDir w),
          .tgSend (dlFolderMsg files.length)]
        ++ files.map (fun f =>
             .wgetRun (fileApiUrl f.id) (mkTmpDir w ++ "/" ++ replaceSlashes f.name))
        ++ [.zipRun (zipFilePath w folderId) (mkTmpDir w),
            .tgSend (zipTooBigMsg (w.statSize (zipFilePath w folderId)))]
        ++ files.map (fun f => .tgSend (memberLinkMsg f))
        ++ [.rmdirRec (mkTmpDir w)],
       .ok ()⟩ := by
  have hs' : ∀ t, w.sendThrows t = false := hs
  simp [handleFolder, hresp, hok, hj, hf, hne, hsmall, emitEv, Res.seq, sendTG,
    hs', downloadAll_trace w (mkTmpDir w) files hwall, runZipCmd, hz, hzbig,
    sendMemberLinks_trace w hs, Res.withFinal, cleanup]

theorem handleFolder_zip_upload_ok (w : World) (folderId : String)
    (maxBytes : Nat) (resp : FolderResp) (files : List FileEntry)
    (hresp : w.folderResp = some resp) (hok : resp.ok = true)
    (hj : resp.jsonOk = true) (hf : resp.filesField = some files)
    (hne : files ≠ []) (hsmall : ¬ maxBytes < totalSize files) (hs : sendsOk w)
    (hwall : ∀ f ∈ files, w.wgetStatus (fileApiUrl f.id) = 0)
    (hz : w.zipStatus = 0)
    (hzle : ¬ maxBytes < w.statSize (zipFilePath w folderId))
    (hc : w.curlStatus = 0) :
    handleFolder w folderId maxBytes =
      ⟨[.httpGet (folderApiUrl folderId), .mkdtemp (mkTmpDir w),
          .tgSend (dlFolderMsg files.length)]
        ++ files.map (fun f =>
             .wgetRun (fileApiUrl f.id) (mkTmpDir w ++ "/" ++ replaceSlashes f.name))
        ++ [.zipRun (zipFilePath w folderId) (mkTmpDir w),
            .tgSend (uploadingZipMsg (w.statSize (zipFilePath w folderId))),
            .curlUpload (zipFilePath w folderId) (folderCaption folderId),
            .tgSend zipDoneMsg,
            .unlink (zipFilePath w folderId),
            .rmdirRec (mkTmpDir w)],
       .ok ()⟩ := by
  have hs' : ∀ t, w.sendThrows t = false := hs
  simp [handleFolder, hresp, hok, hj, hf, hne, hsmall, emitEv, Res.seq, sendTG,
    hs', downloadAll_trace w (mkTmpDir w) files hwall, runZipCmd, hz, hzle, hc,
    uploadDocumentCurl, Res.withFinal, cleanup]

theorem handleFolder_zip_fail (w : World) (folderId : String) (maxBytes : Nat)
    (resp : FolderResp) (files : List FileEntry)
    (hresp : w.folderResp = some resp) (hok : resp.ok = true)
    (hj : resp.jsonOk = true) (hf : resp.filesField = some files)
    (hne : files ≠ []) (hsmall : ¬ maxBytes < totalSize files) (hs : sendsOk w)
    (hwall : ∀ f ∈ files, w.wgetStatus (fileApiUrl f.id) = 0)
    (hz : w.zipStatus ≠ 0) :
    handleFolder w folderId maxBytes =
      ⟨[.httpGet (folderApiUrl folderId), .mkdtemp (mkTmpDir w),
          .tgSend (dlFolderMsg files.length)]
        ++ files.map (fun f =>
             .wgetRun (fileApiUrl f.id) (mkTmpDir w ++ "/" ++ replaceSlashes f.name))
        ++ [.zipRun (zipFilePath w folderId) (mkTmpDir w),
            .rmdirRec (mkTmpDir w)],
       .error ⟨"zip -r " ++ zipFilePath w folderId ++ " . exited "
                ++ toString w.zipStatus⟩⟩ := by
  have hs' : ∀ t, w.sendThrows t = false := hs
  simp [handleFolder, hresp, hok, hj, hf, hne, hsmall, emitEv, Res.seq, sendTG,
    hs', downloadAll_trace w (mkTmpDir w) files hwall, runZipCmd, hz,
    Res.withFinal, cleanup]

/-- The sequential download loop stops at the first failing member: all the
earlier wget events are in the trace, the failing member's wget is attempted,
and the error propagates. -/
theorem downloadAll_fail (w : World) (tmpDir : String) :
    ∀ (files₁ : List FileEntry) (f : FileEntry) (files₂ : List FileEntry),
      (∀ g ∈ files₁, w.wgetStatus (fileApiUrl g.id) = 0) →
      w.wgetStatus (fileApiUrl f.id) ≠ 0 →
      downloadAll w tmpDir (files₁ ++ f :: files₂) =
        ⟨files₁.map (fun g =>
            .wgetRun (fileApiUrl g.id) (tmpDir ++ "/" ++ replaceSlashes g.name))
          ++ [.wgetRun (fileApiUrl f.id) (tmpDir ++ "/" ++ replaceSlashes f.name)],
         .error ⟨"wget -c -O " ++ (tmpDir ++ "/" ++ replaceSlashes f.name) ++ " "
                  ++ fileApiUrl f.id ++ " exited "
                  ++ toString (w.wgetStatus (fileApiUrl f.id))⟩⟩ := by
  intro files₁
  induction files₁ with
  | nil =>
    intro f files₂ _ hf
    simp [downloadAll, downloadWithWget, hf, Res.seq]
  | cons g gs ih =>
    intro f files₂ hall hf
    have hg := hall g (List.mem_cons_self g gs)
    simp [downloadAll, downloadWithWget, hg, Res.seq,
      ih f files₂ (fun x hx => hall x (List.mem_cons_of_mem g hx)) hf]

/-- A member download failure aborts the folder plan; the staging directory
is still removed by the `finally`. -/
theorem handleFolder_dl_fail (w : World) (folderId : String) (maxBytes : Nat)
    (resp : FolderResp) (files₁ : List FileEntry) (f : FileEntry)
    (files₂ : List FileEntry)
    (hresp : w.folderResp = some resp) (hok : resp.ok = true)
    (hj : resp.jsonOk = true) (hf : resp.filesField = some (files₁ ++ f :: files₂))
    (hsmall : ¬ maxBytes < totalSize (files₁ ++ f :: files₂)) (hs : sendsOk w)
    (hall : ∀ g ∈ files₁, w.wgetStatus (fileApiUrl g.id) = 0)
    (hfail : w.wgetStatus (fileApiUrl f.id) ≠ 0) :
    handleFolder w folderId maxBytes =
      ⟨[.httpGet (folderApiUrl folderId), .mkdtemp (mkTmpDir w),
          .tgSend (dlFolderMsg (files₁ ++ f :: files₂).length)]
        ++ files₁.map (fun g =>
             .wgetRun (fileApiUrl g.id) (mkTmpDir w ++ "/" ++ replaceSlashes g.name))
        ++ [.wgetRun (fileApiUrl f.id)
              (mkTmpDir w ++ "/" ++ replaceSlashes f.name),
            .rmdirRec (mkTmpDir w)],
       .error ⟨"wget -c -O " ++ (mkTmpDir w ++ "/" ++ replaceSlashes f.name)
                ++ " " ++ fileApiUrl f.id ++ " exited "
                ++ toString (w.wgetStatus (fileApiUrl f.id))⟩⟩ := by
  have hs' : ∀ t, w.sendThrows t = false := hs
  have hnnil : (files₁ ++ f :: files₂).isEmpty = false := by
    cases files₁ <;> simp
  simp [handleFolder, hresp, hok, hj, hf, hnnil, hsmall, emitEv, Res.seq,
    sendTG, hs', downloadAll_fail w (mkTmpDir w) files₁ f files₂ hall hfail,
    Res.withFinal, cleanup]

/-- An upload failure on the folder path: the error propagates after the
`finally` removed the staging directory; the zip is left in place. -/
theorem handleFolder_curl_fail (w : World) (folderId : String) (maxBytes : Nat)
    (resp : FolderResp) (files : List FileEntry)
    (hresp : w.folderResp = some resp) (hok : resp.ok = true)
    (hj : resp.jsonOk = true) (hf : resp.filesField = some files)
    (hne : files ≠ []) (hsmall : ¬ maxBytes < totalSize files) (hs : sendsOk w)
    (hwall : ∀ f ∈ files, w.wgetStatus (fileApiUrl f.id) = 0)
    (hz : w.zipStatus = 0)
    (hzle : ¬ maxBytes < w.statSize (zipFilePath w folderId))
    (hc : w.curlStatus ≠ 0) :
    handleFolder w folderId maxBytes =
      ⟨[.httpGet (folderApiUrl folderId), .mkdtemp (mkTmpDir w),
          .tgSend (dlFolderMsg files.length)]
        ++ files.map (fun f =>
             .wgetRun (fileApiUrl f.id) (mkTmpDir w ++ "/" ++ replaceSlashes f.name))
        ++ [.zipRun (zipFilePath w folderId) (mkTmpDir w),
            .tgSend (uploadingZipMsg (w.statSize (zipFilePath w folderId))),
            .curlUpload (zipFilePath w folderId) (folderCaption folderId),
            .rmdirRec (mkTmpDir w)],
       .error ⟨"curl exited with " ++ toString w.curlStatus⟩⟩ := by
  have hs' : ∀ t, w.sendThrows t = false := hs
  simp [handleFolder, hresp, hok, hj, hf, hne, hsmall, emitEv, Res.seq, sendTG,
    hs', downloadAll_trace w (mkTmpDir w) files hwall, runZipCmd, hz, hzle, hc,
    uploadDocumentCurl, Res.withFinal, cleanup]

/-! ## Branch lemmas for the main IIFE -/

theorem crashHandler_evs (w : World) (e : JsErr)
    (h2 : envFalsy w.tgToken = false) (h3 : envFalsy w.tgChatId = false) :
    (crashHandler w e).evs = [.tgSend (errNotifMsg e.message)] := by
  simp [crashHandler, h2, h3, Res.catchAll, sendTG]

theorem crashHandler_evs_noCreds (w : World) (e : JsErr)
    (h : envFalsy w.tgToken = true ∨ envFalsy w.tgChatId = true) :
    (crashHandler w e).evs = [] := by
  rcases h with h | h <;> simp [crashHandler, h, Res.catchAll, Res.pureU]

theorem mainBody_no_link (w : World) (h1 : envFalsy w.pixelLink = true) :
    mainBody w = ⟨[], .error ⟨"PIXEL_LINK environment variable missing"⟩⟩ := by
  simp [mainBody, h1, throwR]

theorem mainBody_no_token (w : World) (h1 : envFalsy w.pixelLink = false)
    (h2 : envFalsy w.tgToken = true) :
    mainBody w = ⟨[], .error ⟨"TELEGRAM_BOT_TOKEN environment variable missing"⟩⟩ := by
  simp [mainBody, h1, h2, throwR]

theorem mainBody_no_chat (w : World) (h1 : envFalsy w.pixelLink = false)
    (h2 : envFalsy w.tgToken = false) (h3 : envFalsy w.tgChatId = true) :
    mainBody w = ⟨[], .error ⟨"TELEGRAM_CHAT_ID environment variable missing"⟩⟩ := by
  simp [mainBody, h1, h2, h3, throwR]

theorem mainBody_file (w : World) (fileId : String)
    (h1 : envFalsy w.pixelLink = false) (h2 : envFalsy w.tgToken = false)
    (h3 : envFalsy w.tgChatId = false)
    (hstart : w.sendThrows startMsg = false)
    (hfid : searchPixel 'u' (w.pixelLink.getD "").data = some fileId) :
    mainBody w =
      ⟨.tgSend startMsg ::
         (handleFile w fileId (w.maxUploadBytes.getD DEFAULT_MAX_BYTES)).evs,
       (handleFile w fileId (w.maxUploadBytes.getD DEFAULT_MAX_BYTES)).res⟩ := by
  simp [mainBody, h1, h2, h3, sendTG, hstart, Res.seq, hfid]

theorem mainBody_folder (w : World) (folderId : String)
    (h1 : envFalsy w.pixelLink = false) (h2 : envFalsy w.tgToken = false)
    (h3 : envFalsy w.tgChatId = false)
    (hstart : w.sendThrows startMsg = false)
    (hu : searchPixel 'u' (w.pixelLink.getD "").data = none)
    (hl : searchPixel 'l' (w.pixelLink.getD "").data = some folderId) :
    mainBody w =
      ⟨.tgSend startMsg ::
         (handleFolder w folderId (w.maxUploadBytes.getD DEFAULT_MAX_BYTES)).evs,
       (handleFolder w folderId (w.maxUploadBytes.getD DEFAULT_MAX_BYTES)).res⟩ := by
  simp [mainBody, h1, h2, h3, sendTG, hstart, Res.seq, hu, hl]

theorem mainBody_unrecognized (w : World)
    (h1 : envFalsy w.pixelLink = false) (h2 : envFalsy w.tgToken = false)
    (h3 : envFalsy w.tgChatId = false)
    (hstart : w.sendThrows startMsg = false)
    (hu : searchPixel 'u' (w.pixelLink.getD "").data = none)
    (hl : searchPixel 'l' (w.pixelLink.getD "").data = none) :
    mainBody w = ⟨[.tgSend startMsg], .error ⟨noLinkErr⟩⟩ := by
  simp [mainBody, h1, h2, h3, sendTG, hstart, Res.seq, hu, hl, throwR]

/-! ## Shared consequences of the branch lemmas -/

/-- Whenever the pre-download gate is not taken, `handleFile` reaches the
download (the wget event is in the trace) no matter how the download, the
post-check or the upload turn out. -/
theorem handleFile_download_attempted (w : World) (fileId : String)
    (maxBytes : Nat) (hname : nameThrows w = false)
    (hg : sizeGate (probedSize w) maxBytes = false) (hs : sendsOk w) :
    Ev.wgetRun (fileApiUrl fileId) (outFilePath w fileId) ∈
      (handleFile w fileId maxBytes).evs := by
  by_cases hw : w.wgetStatus (fileApiUrl fileId) = 0
  · by_cases hbig : maxBytes < w.statSize (outFilePath w fileId)
    · rw [handleFile_post_too_big w fileId maxBytes hname hg hs hw hbig]; simp
    · by_cases hc : w.curlStatus = 0
      · rw [handleFile_success w fileId maxBytes hname hg hs hw hbig hc]; simp
      · rw [handleFile_curl_fail w fileId maxBytes hname hg hs hw hbig hc]; simp
  · rw [handleFile_wget_fail w fileId maxBytes hname hg hs hw]; simp

theorem fileTooBigMsg_contains_url (filename sizeText url : String) :
    strContains (fileTooBigMsg filename sizeText url) (escapeMarkdownV2 url) := by
  unfold fileTooBigMsg
  exact strContains_appendL _ (strContains_appendR _ (strContains_self _))

theorem postTooBigMsg_contains_url (url : String) :
    strContains (postTooBigMsg url) (escapeMarkdownV2 url) := by
  unfold postTooBigMsg
  exact strContains_appendL _ (strContains_appendR _ (strContains_self _))

theorem folderLine_contains_name (f : FileEntry) :
    strContains (folderLine f) (escapeMarkdownV2 f.name) := by
  unfold folderLine
  exact strContains_appendL _ (strContains_appendL _ (strContains_appendL _
    (strContains_appendL _ (strContains_appendL _
      (strContains_appendR _ (strContains_self _))))))

theorem folderLine_contains_url (f : FileEntry) :
    strContains (folderLine f) (escapeMarkdownV2 (fileApiUrl f.id)) := by
  unfold folderLine
  exact strContains_appendL _ (strContains_appendR _ (strContains_self _))

/-! ## Claim C3 (corrected) -/

/-- **C3 counterexample.** The probe reports a known size of 5000 bytes
against a 1000-byte budget, but the content-disposition name is
percent-malformed: `decodeURIComponent` throws at line 88, before the size
gate, so the run aborts and ZERO link-fallback notifications are sent —
refuting "exactly one link-fallback notification is sent". -/
theorem C3_counterexample :
    probedSize wNameThrowBig = some (.num 5000) ∧
    (1000 : ℚ) < 5000 ∧
    handleFile wNameThrowBig "abc123" 1000 =
      ⟨[.httpHead (fileApiUrl "abc123")], .error ⟨"URI malformed"⟩⟩ ∧
    (handleFile wNameThrowBig "abc123" 1000).evs.countP
      (fun e => match e with | .tgSend _ => true | _ => false) = 0 := by
  refine ⟨by decide, by norm_num, handleFile_name_throws _ _ _ rfl, ?_⟩
  rw [handleFile_name_throws wNameThrowBig "abc123" 1000 rfl]
  decide

/-- **C3 (amended).** For every single file whose probed size is known and
strictly greater than `maxBytes`, provided the display-name extraction does
not throw, `handleFile` performs no download and sends exactly one
link-fallback notification whose text carries the file's direct download URL
(MarkdownV2-escaped; the escaping is lossless); when the display-name
decoding throws, the handler aborts with the URIError right after the probe
and sends nothing. -/
theorem C3_amended :
    (∀ (w : World) (fileId : String) (maxBytes : Nat) (q : ℚ),
      nameThrows w = false → probedSize w = some (.num q) →
      (maxBytes : ℚ) < q →
      handleFile w fileId maxBytes =
        ⟨[.httpHead (fileApiUrl fileId),
          .tgSend (fileTooBigMsg (probedName w fileId)
            (jsNumToString (.num q)) (fileApiUrl fileId))],
         (sendTG w (fileTooBigMsg (probedName w fileId)
            (jsNumToString (.num q)) (fileApiUrl fileId))).res⟩ ∧
      (∀ u p, Ev.wgetRun u p ∉ (handleFile w fileId maxBytes).evs) ∧
      ((handleFile w fileId maxBytes).evs.countP
          (fun e => match e with | .tgSend _ => true | _ => false)) = 1 ∧
      strContains (fileTooBigMsg (probedName w fileId)
          (jsNumToString (.num q)) (fileApiUrl fileId))
        (escapeMarkdownV2 (fileApiUrl fileId)) ∧
      unescapeMdV2 (escapeMarkdownV2 (fileApiUrl fileId)) = fileApiUrl fileId) ∧
    (∀ (w : World) (fileId : String) (maxBytes : Nat),
      nameThrows w = true →
      handleFile w fileId maxBytes =
        ⟨[.httpHead (fileApiUrl fileId)], .error ⟨"URI malformed"⟩⟩) := by
  constructor
  · intro w fileId maxBytes q hname hn hbig
    have hq : q ≠ 0 := (lt_of_le_of_lt (Nat.cast_nonneg maxBytes) hbig).ne'
    have hgate : sizeGate (probedSize w) maxBytes = true := by
      simp [sizeGate, hn, jsTruthy, jsGtNat, hbig, hq]
    have heq := handleFile_gate_taken w fileId maxBytes hname hgate
    rw [hn] at heq
    simp only [Option.getD_some] at heq
    refine ⟨heq, ?_, ?_, fileTooBigMsg_contains_url _ _ _, unescape_escape _⟩
    · intro u p
      rw [heq]
      simp
    · rw [heq]
      simp [List.countP_cons]
  · intro w fileId maxBytes hthrow
    exact handleFile_name_throws w fileId maxBytes hthrow

/-- Witness for C3 (amended): probe says 5000 bytes with a well-formed name,
budget 1000; no download event occurs. -/
theorem C3_witness :
    probedSize wKnownBig = some (.num 5000) ∧
    (∀ u p, Ev.wgetRun u p ∉ (handleFile wKnownBig "abc123" 1000).evs) :=
  ⟨by decide,
   (C3_amended.1 wKnownBig "abc123" 1000 5000 rfl (by decide)
      (by norm_num)).2.1⟩

/-! ## Claim C4 (corrected) -/

/-- **C4 counterexample.** Probed size unknown (no content-length), but the
content-disposition name is percent-malformed: the run aborts with the
URIError before creating the staging directory or invoking wget — refuting
"a download is attempted" for every unknown-size file. -/
theorem C4_counterexample :
    probedSize wNameThrowUnknown = none ∧
    handleFile wNameThrowUnknown "abc123" 1000 =
      ⟨[.httpHead (fileApiUrl "abc123")], .error ⟨"URI malformed"⟩⟩ ∧
    (handleFile wNameThrowUnknown "abc123" 1000).evs.countP
      (fun e => match e with | .wgetRun _ _ => true | _ => false) = 0 := by
  refine ⟨by decide, handleFile_name_throws _ _ _ rfl, ?_⟩
  rw [handleFile_name_throws wNameThrowUnknown "abc123" 1000 rfl]
  decide

/-- **C4 (amended).** For every single file whose probed size is unknown,
provided the display-name extraction does not throw, the download is
attempted; and when the downloaded size exceeds `maxBytes`, the staged
artifact is removed, nothing is uploaded, and the fallback notification
carrying the direct URL is sent.  When the display-name decoding throws, the
handler aborts right after the probe, before any staging or download. -/
theorem C4_amended :
    (∀ (w : World) (fileId : String) (maxBytes : Nat),
      nameThrows w = false → probedSize w = none → sendsOk w →
      Ev.wgetRun (fileApiUrl fileId) (outFilePath w fileId) ∈
        (handleFile w fileId maxBytes).evs ∧
      (w.wgetStatus (fileApiUrl fileId) = 0 →
       maxBytes < w.statSize (outFilePath w fileId) →
       handleFile w fileId maxBytes =
         ⟨[.httpHead (fileApiUrl fileId), .mkdtemp (mkTmpDir w),
           .tgSend (downloadingMsg (probedName w fileId)),
           .wgetRun (fileApiUrl fileId) (outFilePath w fileId),
           .tgSend (postTooBigMsg (fileApiUrl fileId)),
           .unlink (outFilePath w fileId), .rmdirRec (mkTmpDir w)],
          .ok ()⟩ ∧
       hasCurl (handleFile w fileId maxBytes).evs = false ∧
       strContains (postTooBigMsg (fileApiUrl fileId))
         (escapeMarkdownV2 (fileApiUrl fileId)) ∧
       unescapeMdV2 (escapeMarkdownV2 (fileApiUrl fileId)) = fileApiUrl fileId)) ∧
    (∀ (w : World) (fileId : String) (maxBytes : Nat),
      nameThrows w = true →
      handleFile w fileId maxBytes =
        ⟨[.httpHead (fileApiUrl fileId)], .error ⟨"URI malformed"⟩⟩) := by
  constructor
  · intro w fileId maxBytes hname hprobe hs
    have hgate : sizeGate (probedSize w) maxBytes = false := by
      simp [sizeGate, hprobe]
    refine ⟨handleFile_download_attempted w fileId maxBytes hname hgate hs, ?_⟩
    intro hw hbig
    have heq := handleFile_post_too_big w fileId maxBytes hname hgate hs hw hbig
    refine ⟨heq, ?_, postTooBigMsg_contains_url _, unescape_escape _⟩
    rw [heq]
    simp [hasCurl]
  · intro w fileId maxBytes hthrow
    exact handleFile_name_throws w fileId maxBytes hthrow

/-- Witness for C4 (amended): probe failed (size unknown, default name),
downloaded size 5000 against budget 1000; the artifact is cleaned up and not
uploaded. -/
theorem C4_witness :
    probedSize wUnknownBig = none ∧
    (Ev.wgetRun (fileApiUrl "abc123") (outFilePath wUnknownBig "abc123") ∈
      (handleFile wUnknownBig "abc123" 1000).evs ∧
     hasCurl (handleFile wUnknownBig "abc123" 1000).evs = false) :=
  have h := C4_amended.1 wUnknownBig "abc123" 1000 rfl (by decide)
    (fun _ => rfl)
  ⟨by decide, h.1, (h.2 (by decide) (by decide)).2.1⟩

/-! ## Claim C9 (corrected) -/

/-- **C9 counterexample.** Content-length "0" — the pre-download fallback
branch is indeed not taken — but the percent-malformed display name makes the
run abort before any download, refuting "the download is attempted". -/
theorem C9_counterexample :
    sizeGate (probedSize wNameThrowZero) 1000 = false ∧
    handleFile wNameThrowZero "abc123" 1000 =
      ⟨[.httpHead (fileApiUrl "abc123")], .error ⟨"URI malformed"⟩⟩ ∧
    (handleFile wNameThrowZero "abc123" 1000).evs.countP
      (fun e => match e with | .wgetRun _ _ => true | _ => false) = 0 := by
  refine ⟨by decide, handleFile_name_throws _ _ _ rfl, ?_⟩
  rw [handleFile_name_throws wNameThrowZero "abc123" 1000 rfl]
  decide

/-- **C9 (amended).** When the probe's content-length header is "0" or not a
numeric string at all (`Number` gives `NaN`), the budget gate treats the size
as unknown — the pre-download link-fallback branch is not taken — and,
provided the display-name extraction does not throw, the download is
attempted with only the post-download size check applied. -/
theorem C9_amended :
    (∀ (w : World) (maxBytes : Nat) (hr : HeadResult) (s : String),
      w.headResp = some hr → hr.ok = true → hr.contentLength = some s →
      (s = "0" ∨ jsNumber s.data = .nan) →
      sizeGate (probedSize w) maxBytes = false) ∧
    (∀ (w : World) (fileId : String) (maxBytes : Nat) (hr : HeadResult)
        (s : String),
      w.headResp = some hr → hr.ok = true → hr.contentLength = some s →
      (s = "0" ∨ jsNumber s.data = .nan) →
      nameThrows w = false → sendsOk w →
      Ev.wgetRun (fileApiUrl fileId) (outFilePath w fileId) ∈
        (handleFile w fileId maxBytes).evs) := by
  have gate : ∀ (w : World) (maxBytes : Nat) (hr : HeadResult) (s : String),
      w.headResp = some hr → hr.ok = true → hr.contentLength = some s →
      (s = "0" ∨ jsNumber s.data = .nan) →
      sizeGate (probedSize w) maxBytes = false := by
    intro w maxBytes hr s hhead hok hcl hz
    rcases hz with rfl | hz
    · have hps : probedSize w = some (.num 0) := by
        simp only [probedSize, hhead, hok, if_true, hcl]
        decide
      simp [sizeGate, hps, jsTruthy]
    · have hps : probedSize w = none ∨ probedSize w = some .nan := by
        simp only [probedSize, hhead, hok, if_true, hcl, parseLen]
        split
        · exact Or.inl rfl
        · exact Or.inr (by rw [hz])
      rcases hps with hps | hps <;> simp [sizeGate, hps, jsTruthy]
  refine ⟨gate, ?_⟩
  intro w fileId maxBytes hr s hhead hok hcl hz hname hs
  exact handleFile_download_attempted w fileId maxBytes hname
    (gate w maxBytes hr s hhead hok hcl hz) hs

/-- Witness for C9 (amended): content-length "0" at a concrete world with a
well-formed name, budget 1000; the gate is closed and the wget runs. -/
theorem C9_witness :
    sizeGate (probedSize wZeroLen) 1000 = false ∧
    Ev.wgetRun (fileApiUrl "abc123") (outFilePath wZeroLen "abc123") ∈
      (handleFile wZeroLen "abc123" 1000).evs :=
  ⟨C9_amended.1 wZeroLen 1000
     { ok := true, parsedName := .ok "file.bin", contentLength := some "0" }
     "0" rfl rfl rfl (Or.inl rfl),
   C9_amended.2 wZeroLen "abc123" 1000
     { ok := true, parsedName := .ok "file.bin", contentLength := some "0" }
     "0" rfl rfl rfl (Or.inl rfl) rfl (fun _ => rfl)⟩

/-! ## Claim C2 -/

/-- **C2.** For every folder listing, the total is the sum of the members'
reported sizes with missing sizes counted as 0; and when the total exceeds
`maxBytes`, `handleFolder` takes the link-fallback path: no member download
occurs and every member's line (escaped name and direct URL) is delivered in
one of the chunked messages. -/
theorem C2_folder_budget_fallback (w : World) (folderId : String)
    (maxBytes : Nat) (resp : FolderResp) (files : List FileEntry)
    (hresp : w.folderResp = some resp) (hok : resp.ok = true)
    (hj : resp.jsonOk = true) (hf : resp.filesField = some files)
    (hne : files ≠ []) (hbig : maxBytes < totalSize files) (hs : sendsOk w) :
    totalSize files = (files.map fun f => f.size.getD 0).sum ∧
    handleFolder w folderId maxBytes =
      ⟨.httpGet (folderApiUrl folderId) ::
        .tgSend (bigFolderMsg files.length (totalSize files)
          (joinSep "\n\n" ((files.map folderLine).take 20))) ::
        (chunkLines (files.map folderLine)).map
          (fun c => .tgSend (joinSep "\n\n" c)),
       .ok ()⟩ ∧
    (∀ u p, Ev.wgetRun u p ∉ (handleFolder w folderId maxBytes).evs) ∧
    (∀ f ∈ files, ∃ c ∈ chunkLines (files.map folderLine),
        folderLine f ∈ c ∧ strContains (joinSep "\n\n" c) (folderLine f)) ∧
    (∀ f : FileEntry, strContains (folderLine f) (escapeMarkdownV2 f.name) ∧
        strContains (folderLine f) (escapeMarkdownV2 (fileApiUrl f.id))) := by
  have heq := handleFolder_too_big w folderId maxBytes resp files hresp hok hj
    hf hne hbig hs
  have hjoin : (chunkLines (files.map folderLine)).flatten = files.map folderLine := by
    simpa [chunkLines] using chunkAux_join (files.map folderLine) [] 0
  refine ⟨totalSize_eq_sum files, heq, ?_, ?_, ?_⟩
  · intro u p
    rw [heq]
    simp
  · intro f hfm
    have hline : folderLine f ∈ (chunkLines (files.map folderLine)).flatten := by
      rw [hjoin]
      exact List.mem_map_of_mem folderLine hfm
    obtain ⟨c, hc, hmem⟩ := List.mem_flatten.mp hline
    exact ⟨c, hc, hmem, strContains_joinSep _ c _ hmem⟩
  · intro f
    exact ⟨folderLine_contains_name f, folderLine_contains_url f⟩

/-- Witness for C2 at a concrete folder (sizes 700 and 200, budget 600). -/
theorem C2_witness :
    totalSize [entry1, entry2] = 900 ∧
    (∀ u p, Ev.wgetRun u p ∉ (handleFolder wFolderBig "fold01" 600).evs) :=
  have h := C2_folder_budget_fallback wFolderBig "fold01" 600 folderRespOk
    [entry1, entry2] rfl rfl rfl rfl (by decide) (by decide) (fun _ => rfl)
  ⟨by decide, h.2.2.1⟩

/-! ## Claim C10 -/

/-- **C10.** In the listed-total-too-big fallback, the first notification
embeds exactly the first 20 members' lines (each of them a substring of it),
and the subsequent chunked messages deliver every member's line again: the
chunks concatenate back to the full line list. -/
theorem C10_preview_then_chunks (w : World) (folderId : String)
    (maxBytes : Nat) (resp : FolderResp) (files : List FileEntry)
    (hresp : w.folderResp = some resp) (hok : resp.ok = true)
    (hj : resp.jsonOk = true) (hf : resp.filesField = some files)
    (hne : files ≠ []) (hbig : maxBytes < totalSize files) (hs : sendsOk w) :
    handleFolder w folderId maxBytes =
      ⟨.httpGet (folderApiUrl folderId) ::
        .tgSend (bigFolderMsg files.length (totalSize files)
          (joinSep "\n\n" ((files.map folderLine).take 20))) ::
        (chunkLines (files.map folderLine)).map
          (fun c => .tgSend (joinSep "\n\n" c)),
       .ok ()⟩ ∧
    (∀ l ∈ (files.map folderLine).take 20,
        strContains (bigFolderMsg files.length (totalSize files)
          (joinSep "\n\n" ((files.map folderLine).take 20))) l) ∧
    (chunkLines (files.map folderLine)).flatten = files.map folderLine ∧
    (∀ l ∈ files.map folderLine,
        ∃ c ∈ chunkLines (files.map folderLine), l ∈ c) := by
  have heq := handleFolder_too_big w folderId maxBytes resp files hresp hok hj
    hf hne hbig hs
  have hjoin : (chunkLines (files.map folderLine)).flatten = files.map folderLine := by
    simpa [chunkLines] using chunkAux_join (files.map folderLine) [] 0
  refine ⟨heq, ?_, hjoin, ?_⟩
  · intro l hl
    have hsub := strContains_joinSep "\n\n" ((files.map folderLine).take 20) l hl
    unfold bigFolderMsg
    exact strContains_appendL _ (strContains_appendR _ hsub)
  · intro l hl
    rw [← hjoin] at hl
    obtain ⟨c, hc, hmem⟩ := List.mem_flatten.mp hl
    exact ⟨c, hc, hmem⟩

/-- Witness for C10 at the concrete folder: both lines are in the preview and
in the chunks. -/
theorem C10_witness :
    strContains (bigFolderMsg 2 900
      (joinSep "\n\n" (([entry1, entry2].map folderLine).take 20)))
      (folderLine entry1) ∧
    (chunkLines ([entry1, entry2].map folderLine)).flatten
      = [entry1, entry2].map folderLine :=
  have h := C10_preview_then_chunks wFolderBig "fold01" 600 folderRespOk
    [entry1, entry2] rfl rfl rfl rfl (by decide) (by decide) (fun _ => rfl)
  ⟨h.2.1 (folderLine entry1) (by simp), h.2.2.1⟩

/-! ## Claim C7 (amended) -/

/-- **C7 (amended).** The chunking loop preserves item order and never splits
an item's line across messages (the chunks concatenate back to the input),
and every message holding at least two lines keeps the combined length of its
lines within 3000 characters.  (The `\n\n` joiners are not counted, the loop
may emit a single message even when the joined text exceeds 3000, and a
single line longer than 3000 is sent unsplit — see the counterexample.) -/
theorem C7_amended (lines : List String) :
    (chunkLines lines).flatten = lines ∧
    ∀ c ∈ chunkLines lines, 2 ≤ c.length → sumLen c ≤ 3000 := by
  constructor
  · simpa [chunkLines] using chunkAux_join lines [] 0
  · intro c hc
    exact chunkAux_bound lines [] 0 rfl (by intro h; simp at h) c hc

/-- **C7 counterexample.** Two 1500-character lines: the concatenated text is
3002 characters (over the 3000 limit), yet the loop sends a single message —
not two or more — and that message itself exceeds the limit. -/
theorem C7_counterexample :
    3000 < (joinSep "\n\n" cexLines).length ∧
    chunkLines cexLines = [cexLines] ∧
    ¬ (2 ≤ (chunkLines cexLines).length ∧
        ∀ c ∈ chunkLines cexLines, (joinSep "\n\n" c).length ≤ 3000) := by
  have ha : line1500a.length = 1500 := by
    show (List.replicate 1500 'a').length = 1500
    rw [List.length_replicate]
  have hb : line1500b.length = 1500 := by
    show (List.replicate 1500 'b').length = 1500
    rw [List.length_replicate]
  have hj : joinSep "\n\n" cexLines = line1500a ++ "\n\n" ++ line1500b := rfl
  have hlen : (joinSep "\n\n" cexLines).length = 3002 := by
    rw [hj, String.length_append, String.length_append, ha, hb]
    rfl
  have hch : chunkLines cexLines = [cexLines] := by
    simp [chunkLines, cexLines, chunkAux, ha, hb]
  refine ⟨by omega, hch, ?_⟩
  rintro ⟨h2, _⟩
  rw [hch] at h2
  simp at h2

/-! ## Claim C1 (corrected) -/

/-- Shared step: when the main body throws and both messaging credentials are
present, the run exits 1 and its trace ends with a notification attempt. -/
theorem runScript_err_notified (w : World) (h2 : envFalsy w.tgToken = false)
    (h3 : envFalsy w.tgChatId = false) (evs : List Ev) (e : JsErr)
    (hm : mainBody w = ⟨evs, .error e⟩) :
    (runScript w).2 = 1 ∧
    ∃ pre m, (runScript w).1 = pre ++ [.tgSend m] := by
  have hc := crashHandler_evs w e h2 h3
  refine ⟨by simp [runScript, hm], evs, errNotifMsg e.message, ?_⟩
  simp [runScript, hm, hc]

/-- **C1 counterexample.** A folder-listing fetch that fails with HTTP 500 is
only reported to the chat; the run then completes normally and the process
exits 0, not 1 as the claim requires for a folder-fetch failure. -/
theorem C1_counterexample :
    (runScript wFetchFail).1 =
      [.tgSend startMsg, .httpGet (folderApiUrl "fold01"),
       .tgSend (folderFailMsg "fold01" 500)] ∧
    (runScript wFetchFail).2 ≠ 1 := by
  decide

/-- **C1 (amended).** The process exits 1 on missing configuration (any of
the three variables), an unrecognized link, and download, archive and upload
failures — attempting one best-effort error notification first whenever both
messaging credentials are present, with that attempt's own failure not
changing the exit code — and exits 0 on full success and on every graceful
fallback: the known-oversize file fallback, the folder-listing-total
fallback, the oversized-zip fallback, the folder-fetch failure report and
the empty-folder report. -/
theorem C1_amended :
    (∀ w : World, envFalsy w.pixelLink = true → (runScript w).2 = 1) ∧
    (∀ w : World, envFalsy w.pixelLink = false → envFalsy w.tgToken = true →
        runScript w = ([], 1)) ∧
    (∀ w : World, envFalsy w.pixelLink = false → envFalsy w.tgToken = false →
        envFalsy w.tgChatId = true →
        runScript w = ([], 1)) ∧
    (∀ w : World, envFalsy w.pixelLink = false → envFalsy w.tgToken = false →
        envFalsy w.tgChatId = false → w.sendThrows startMsg = false →
        searchPixel 'u' (w.pixelLink.getD "").data = none →
        searchPixel 'l' (w.pixelLink.getD "").data = none →
        runScript w = ([.tgSend startMsg, .tgSend (errNotifMsg noLinkErr)], 1)) ∧
    (∀ w : World, envFalsy w.pixelLink = false → envFalsy w.tgToken = false →
        envFalsy w.tgChatId = false → w.sendThrows startMsg = false →
        w.sendThrows (errNotifMsg noLinkErr) = true →
        searchPixel 'u' (w.pixelLink.getD "").data = none →
        searchPixel 'l' (w.pixelLink.getD "").data = none →
        runScript w = ([.tgSend startMsg, .tgSend (errNotifMsg noLinkErr)], 1)) ∧
    (∀ (w : World) (fileId : String), envFalsy w.pixelLink = false →
        envFalsy w.tgToken = false → envFalsy w.tgChatId = false →
        w.sendThrows startMsg = false →
        searchPixel 'u' (w.pixelLink.getD "").data = some fileId →
        nameThrows w = false →
        sizeGate (probedSize w) (w.maxUploadBytes.getD DEFAULT_MAX_BYTES) = false →
        sendsOk w → w.wgetStatus (fileApiUrl fileId) ≠ 0 →
        (runScript w).2 = 1 ∧
        ∃ pre m, (runScript w).1 = pre ++ [.tgSend m]) ∧
    (∀ (w : World) (fileId : String), envFalsy w.pixelLink = false →
        envFalsy w.tgToken = false → envFalsy w.tgChatId = false →
        w.sendThrows startMsg = false →
        searchPixel 'u' (w.pixelLink.getD "").data = some fileId →
        nameThrows w = false →
        sizeGate (probedSize w) (w.maxUploadBytes.getD DEFAULT_MAX_BYTES) = false →
        sendsOk w → w.wgetStatus (fileApiUrl fileId) = 0 →
        ¬ w.maxUploadBytes.getD DEFAULT_MAX_BYTES < w.statSize (outFilePath w fileId) →
        w.curlStatus ≠ 0 →
        (runScript w).2 = 1 ∧
        ∃ pre m, (runScript w).1 = pre ++ [.tgSend m]) ∧
    (∀ (w : World) (folderId : String) (resp : FolderResp)
        (files : List FileEntry), envFalsy w.pixelLink = false →
        envFalsy w.tgToken = false → envFalsy w.tgChatId = false →
        w.sendThrows startMsg = false →
        searchPixel 'u' (w.pixelLink.getD "").data = none →
        searchPixel 'l' (w.pixelLink.getD "").data = some folderId →
        w.folderResp = some resp → resp.ok = true → resp.jsonOk = true →
        resp.filesField = some files → files ≠ [] →
        ¬ w.maxUploadBytes.getD DEFAULT_MAX_BYTES < totalSize files →
        sendsOk w → (∀ f ∈ files, w.wgetStatus (fileApiUrl f.id) = 0) →
        w.zipStatus ≠ 0 →
        (runScript w).2 = 1 ∧
        ∃ pre m, (runScript w).1 = pre ++ [.tgSend m]) ∧
    (∀ (w : World) (folderId : String) (resp : FolderResp),
        envFalsy w.pixelLink = false → envFalsy w.tgToken = false →
        envFalsy w.tgChatId = false → w.sendThrows startMsg = false →
        searchPixel 'u' (w.pixelLink.getD "").data = none →
        searchPixel 'l' (w.pixelLink.getD "").data = some folderId →
        w.folderResp = some resp → resp.ok = false →
        w.sendThrows (folderFailMsg folderId resp.status) = false →
        runScript w = ([.tgSend startMsg, .httpGet (folderApiUrl folderId),
                        .tgSend (folderFailMsg folderId resp.status)], 0)) ∧
    (∀ (w : World) (folderId : String) (resp : FolderResp),
        envFalsy w.pixelLink = false → envFalsy w.tgToken = false →
        envFalsy w.tgChatId = false → w.sendThrows startMsg = false →
        searchPixel 'u' (w.pixelLink.getD "").data = none →
        searchPixel 'l' (w.pixelLink.getD "").data = some folderId →
        w.folderResp = some resp → resp.ok = true → resp.jsonOk = true →
        (resp.filesField = none ∨ resp.filesField = some []) →
        w.sendThrows emptyFolderMsg = false →
        runScript w = ([.tgSend startMsg, .httpGet (folderApiUrl folderId),
                        .tgSend emptyFolderMsg], 0)) ∧
    (∀ (w : World) (fileId : String), envFalsy w.pixelLink = false →
        envFalsy w.tgToken = false → envFalsy w.tgChatId = false →
        w.sendThrows startMsg = false →
        searchPixel 'u' (w.pixelLink.getD "").data = some fileId →
        nameThrows w = false →
        sizeGate (probedSize w) (w.maxUploadBytes.getD DEFAULT_MAX_BYTES) = false →
        sendsOk w → w.wgetStatus (fileApiUrl fileId) = 0 →
        ¬ w.maxUploadBytes.getD DEFAULT_MAX_BYTES < w.statSize (outFilePath w fileId) →
        w.curlStatus = 0 →
        (runScript w).2 = 0) ∧
    (∀ (w : World) (fileId : String), envFalsy w.pixelLink = false →
        envFalsy w.tgToken = false → envFalsy w.tgChatId = false →
        w.sendThrows startMsg = false →
        searchPixel 'u' (w.pixelLink.getD "").data = some fileId →
        nameThrows w = false →
        sizeGate (probedSize w) (w.maxUploadBytes.getD DEFAULT_MAX_BYTES) = true →
        sendsOk w →
        (runScript w).2 = 0) ∧
    (∀ (w : World) (folderId : String) (resp : FolderResp)
        (files : List FileEntry), envFalsy w.pixelLink = false →
        envFalsy w.tgToken = false → envFalsy w.tgChatId = false →
        w.sendThrows startMsg = false →
        searchPixel 'u' (w.pixelLink.getD "").data = none →
        searchPixel 'l' (w.pixelLink.getD "").data = some folderId →
        w.folderResp = some resp → resp.ok = true → resp.jsonOk = true →
        resp.filesField = some files → files ≠ [] →
        w.maxUploadBytes.getD DEFAULT_MAX_BYTES < totalSize files →
        sendsOk w →
        (runScript w).2 = 0) ∧
    (∀ (w : World) (folderId : String) (resp : FolderResp)
        (files : List FileEntry), envFalsy w.pixelLink = false →
        envFalsy w.tgToken = false → envFalsy w.tgChatId = false →
        w.sendThrows startMsg = false →
        searchPixel 'u' (w.pixelLink.getD "").data = none →
        searchPixel 'l' (w.pixelLink.getD "").data = some folderId →
        w.folderResp = some resp → resp.ok = true → resp.jsonOk = true →
        resp.filesField = some files → files ≠ [] →
        ¬ w.maxUploadBytes.getD DEFAULT_MAX_BYTES < totalSize files →
        sendsOk w → (∀ f ∈ files, w.wgetStatus (fileApiUrl f.id) = 0) →
        w.zipStatus = 0 →
        w.maxUploadBytes.getD DEFAULT_MAX_BYTES < w.statSize (zipFilePath w folderId) →
        (runScript w).2 = 0) ∧
    (∀ (w : World) (folderId : String) (resp : FolderResp)
        (files : List FileEntry), envFalsy w.pixelLink = false →
        envFalsy w.tgToken = false → envFalsy w.tgChatId = false →
        w.sendThrows startMsg = false →
        searchPixel 'u' (w.pixelLink.getD "").data = none →
        searchPixel 'l' (w.pixelLink.getD "").data = some folderId →
        w.folderResp = some resp → resp.ok = true → resp.jsonOk = true →
        resp.filesField = some files → files ≠ [] →
        ¬ w.maxUploadBytes.getD DEFAULT_MAX_BYTES < totalSize files →
        sendsOk w → (∀ f ∈ files, w.wgetStatus (fileApiUrl f.id) = 0) →
        w.zipStatus = 0 →
        ¬ w.maxUploadBytes.getD DEFAULT_MAX_BYTES < w.statSize (zipFilePath w folderId) →
        w.curlStatus = 0 →
        (runScript w).2 = 0) := by
  refine ⟨?_, ?_, ?_, ?_, ?_, ?_, ?_, ?_, ?_, ?_, ?_, ?_, ?_, ?_, ?_⟩
  · intro w h1
    simp [runScript, mainBody_no_link w h1]
  · intro w h1 h2
    simp [runScript, mainBody_no_token w h1 h2,
      crashHandler_evs_noCreds w _ (Or.inl h2)]
  · intro w h1 h2 h3
    simp [runScript, mainBody_no_chat w h1 h2 h3,
      crashHandler_evs_noCreds w _ (Or.inr h3)]
  · intro w h1 h2 h3 hstart hu hl
    have hm := mainBody_unrecognized w h1 h2 h3 hstart hu hl
    simp [runScript, hm, crashHandler_evs w _ h2 h3]
  · intro w h1 h2 h3 hstart _hfail hu hl
    have hm := mainBody_unrecognized w h1 h2 h3 hstart hu hl
    simp [runScript, hm, crashHandler_evs w _ h2 h3]
  · intro w fileId h1 h2 h3 hstart hfid hname hg hs hw
    have hm := mainBody_file w fileId h1 h2 h3 hstart hfid
    rw [handleFile_wget_fail w fileId _ hname hg hs hw] at hm
    exact runScript_err_notified w h2 h3 _ _ hm
  · intro w fileId h1 h2 h3 hstart hfid hname hg hs hw hle hc
    have hm := mainBody_file w fileId h1 h2 h3 hstart hfid
    rw [handleFile_curl_fail w fileId _ hname hg hs hw hle hc] at hm
    exact runScript_err_notified w h2 h3 _ _ hm
  · intro w folderId resp files h1 h2 h3 hstart hu hl hresp hok hj hf hne
      hsmall hs hwall hz
    have hm := mainBody_folder w folderId h1 h2 h3 hstart hu hl
    rw [handleFolder_zip_fail w folderId _ resp files hresp hok hj hf hne
      hsmall hs hwall hz] at hm
    exact runScript_err_notified w h2 h3 _ _ hm
  · intro w folderId resp h1 h2 h3 hstart hu hl hresp hok hsend
    have hm := mainBody_folder w folderId h1 h2 h3 hstart hu hl
    rw [handleFolder_not_ok w folderId _ resp hresp hok] at hm
    simp only [sendTG, hsend] at hm
    simp [runScript, hm]
  · intro w folderId resp h1 h2 h3 hstart hu hl hresp hok hj hfe hsend
    have hm := mainBody_folder w folderId h1 h2 h3 hstart hu hl
    rw [handleFolder_empty w folderId _ resp hresp hok hj hfe] at hm
    simp only [sendTG, hsend] at hm
    simp [runScript, hm]
  · intro w fileId h1 h2 h3 hstart hfid hname hg hs hw hle hc
    have hm := mainBody_file w fileId h1 h2 h3 hstart hfid
    rw [handleFile_success w fileId _ hname hg hs hw hle hc] at hm
    simp [runScript, hm]
  · intro w fileId h1 h2 h3 hstart hfid hname hg hs
    have hs' : ∀ t, w.sendThrows t = false := hs
    have hm := mainBody_file w fileId h1 h2 h3 hstart hfid
    rw [handleFile_gate_taken w fileId _ hname hg] at hm
    simp only [sendTG, hs'] at hm
    simp [runScript, hm]
  · intro w folderId resp files h1 h2 h3 hstart hu hl hresp hok hj hf hne
      hbig hs
    have hm := mainBody_folder w folderId h1 h2 h3 hstart hu hl
    rw [handleFolder_too_big w folderId _ resp files hresp hok hj hf hne
      hbig hs] at hm
    simp [runScript, hm]
  · intro w folderId resp files h1 h2 h3 hstart hu hl hresp hok hj hf hne
      hsmall hs hwall hz hzbig
    have hm := mainBody_folder w folderId h1 h2 h3 hstart hu hl
    rw [handleFolder_zip_too_big w folderId _ resp files hresp hok hj hf hne
      hsmall hs hwall hz hzbig] at hm
    simp [runScript, hm]
  · intro w folderId resp files h1 h2 h3 hstart hu hl hresp hok hj hf hne
      hsmall hs hwall hz hzle hc
    have hm := mainBody_folder w folderId h1 h2 h3 hstart hu hl
    rw [handleFolder_zip_upload_ok w folderId _ resp files hresp hok hj hf hne
      hsmall hs hwall hz hzle hc] at hm
    simp [runScript, hm]

/-- Witness for C1 (amended): an unrecognized link exits 1 after the error
notification; an HTTP-500 folder fetch exits 0 after its notification; a
failed download exits 1 with a final notification attempt; the known-oversize
file fallback exits 0. -/
theorem C1_witness :
    runScript wUnrec = ([.tgSend startMsg, .tgSend (errNotifMsg noLinkErr)], 1) ∧
    runScript wFetchFail =
      ([.tgSend startMsg, .httpGet (folderApiUrl "fold01"),
        .tgSend (folderFailMsg "fold01" 500)], 0) ∧
    ((runScript wDlFail).2 = 1 ∧
      ∃ pre m, (runScript wDlFail).1 = pre ++ [.tgSend m]) ∧
    (runScript wKnownBig).2 = 0 :=
  ⟨C1_amended.2.2.2.1 wUnrec rfl rfl rfl rfl (by decide) (by decide),
   C1_amended.2.2.2.2.2.2.2.2.1 wFetchFail "fold01"
     { ok := false, status := 500, jsonOk := true, filesField := none }
     rfl rfl rfl rfl (by decide) (by decide) rfl rfl rfl,
   C1_amended.2.2.2.2.2.1 wDlFail "abc123" rfl rfl rfl rfl (by decide) rfl rfl
     (fun _ => rfl) (by decide),
   C1_amended.2.2.2.2.2.2.2.2.2.2.2.1 wKnownBig "abc123" rfl rfl rfl rfl
     (by decide) rfl (by decide) (fun _ => rfl)⟩

/-! ## Claim C5 (corrected) -/

/-- **C5 counterexample.** Folder `zipbig`: listed total 900 ≤ 1000, the
produced zip weighs 5000 > 1000.  Per-member links are sent and nothing is
uploaded, but no event ever removes the zip (which lives next to, not
inside, the removed staging directory) — the claim's "archive is discarded"
is false on this run. -/
theorem C5_counterexample :
    Ev.zipRun "/tmp/pixeldrain-folder-zipbig.zip" "/tmp/pixeldrain-ab12cd"
      ∈ (runScript wZipBig).1 ∧
    removesPath (runScript wZipBig).1 "/tmp/pixeldrain-folder-zipbig.zip" = false ∧
    hasCurl (runScript wZipBig).1 = false ∧
    Ev.tgSend (memberLinkMsg entry1) ∈ (runScript wZipBig).1 ∧
    Ev.tgSend (memberLinkMsg entry2) ∈ (runScript wZipBig).1 ∧
    dataStarts ("/tmp/pixeldrain-ab12cd" ++ "/")
      "/tmp/pixeldrain-folder-zipbig.zip" = false := by
  decide

/-- **C5 (amended).** When the archive's real size exceeds `maxBytes` though
the listing total did not: the archive is not uploaded and one link
notification per member is sent in the original listing order — but the
archive file is NOT discarded: no event removes it (the final cleanup removes
only the staging directory, a sibling path). -/
theorem C5_amended (w : World) (folderId : String) (maxBytes : Nat)
    (resp : FolderResp) (files : List FileEntry)
    (hresp : w.folderResp = some resp) (hok : resp.ok = true)
    (hj : resp.jsonOk = true) (hf : resp.filesField = some files)
    (hne : files ≠ []) (hsmall : ¬ maxBytes < totalSize files) (hs : sendsOk w)
    (hwall : ∀ f ∈ files, w.wgetStatus (fileApiUrl f.id) = 0)
    (hz : w.zipStatus = 0)
    (hzbig : maxBytes < w.statSize (zipFilePath w folderId))
    (hneq : mkTmpDir w ≠ zipFilePath w folderId) :
    handleFolder w folderId maxBytes =
      ⟨[.httpGet (folderApiUrl folderId), .mkdtemp (mkTmpDir w),
          .tgSend (dlFolderMsg files.length)]
        ++ files.map (fun f =>
             .wgetRun (fileApiUrl f.id) (mkTmpDir w ++ "/" ++ replaceSlashes f.name))
        ++ [.zipRun (zipFilePath w folderId) (mkTmpDir w),
            .tgSend (zipTooBigMsg (w.statSize (zipFilePath w folderId)))]
        ++ files.map (fun f => .tgSend (memberLinkMsg f))
        ++ [.rmdirRec (mkTmpDir w)],
       .ok ()⟩ ∧
    hasCurl (handleFolder w folderId maxBytes).evs = false ∧
    removesPath (handleFolder w folderId maxBytes).evs
      (zipFilePath w folderId) = false := by
  have heq := handleFolder_zip_too_big w folderId maxBytes resp files hresp hok
    hj hf hne hsmall hs hwall hz hzbig
  refine ⟨heq, ?_, ?_⟩
  · rw [heq]
    simp [hasCurl]
  · rw [heq]
    simp [removesPath, evRemoves, beq_eq_false_iff_ne, hneq]

/-- Witness for C5 (amended) at the concrete folder `zipbig`. -/
theorem C5_witness :
    removesPath (handleFolder wZipBig "zipbig" 1000).evs
      (zipFilePath wZipBig "zipbig") = false ∧
    hasCurl (handleFolder wZipBig "zipbig" 1000).evs = false :=
  have h := C5_amended wZipBig "zipbig" 1000 folderRespOk [entry1, entry2]
    rfl rfl rfl rfl (by decide) (by decide) (fun _ => rfl)
    (fun _ _ => rfl) rfl (by decide) (by decide)
  ⟨h.2.2, h.2.1⟩

/-! ## Claim C6 (corrected) -/

/-- **C6 counterexample.** On the oversized-zip fallback path of folder
`fold66`, the staging directory is removed but no event removes the archive
file, which is not inside that directory — so "all staging resources
(including the archive) are removed on every path" is false on this run. -/
theorem C6_counterexample :
    Ev.zipRun "/tmp/pixeldrain-folder-fold66.zip" "/tmp/pixeldrain-ab12cd"
      ∈ (runScript wZipBig2).1 ∧
    removesPath (runScript wZipBig2).1 "/tmp/pixeldrain-folder-fold66.zip" = false ∧
    Ev.rmdirRec "/tmp/pixeldrain-ab12cd" ∈ (runScript wZipBig2).1 ∧
    dataStarts ("/tmp/pixeldrain-ab12cd" ++ "/")
      "/tmp/pixeldrain-folder-fold66.zip" = false := by
  decide

/-- **C6 (amended).** The staging directory and the downloaded files are
removed at the end of the run on the success path and on every failure path
of either handler — after a download failure, an upload failure or an
archive failure alike — and each cleanup step (a `try {} catch {}` block in
the script, the `cleanup` step here) never throws; the archive file,
however, is removed only on the successful-upload path and is left behind on
the oversized-zip fallback path. -/
theorem C6_amended :
    (∀ (w : World) (fileId : String) (maxBytes : Nat),
      nameThrows w = false →
      sizeGate (probedSize w) maxBytes = false → sendsOk w →
      w.wgetStatus (fileApiUrl fileId) = 0 →
      ¬ maxBytes < w.statSize (outFilePath w fileId) → w.curlStatus = 0 →
      ∃ pre, (handleFile w fileId maxBytes).evs =
        pre ++ [.unlink (outFilePath w fileId), .rmdirRec (mkTmpDir w)]) ∧
    (∀ (w : World) (fileId : String) (maxBytes : Nat),
      nameThrows w = false →
      sizeGate (probedSize w) maxBytes = false → sendsOk w →
      w.wgetStatus (fileApiUrl fileId) ≠ 0 →
      (∃ pre, (handleFile w fileId maxBytes).evs =
        pre ++ [.unlink (outFilePath w fileId), .rmdirRec (mkTmpDir w)]) ∧
      (handleFile w fileId maxBytes).completed = false) ∧
    (∀ (w : World) (fileId : String) (maxBytes : Nat),
      nameThrows w = false →
      sizeGate (probedSize w) maxBytes = false → sendsOk w →
      w.wgetStatus (fileApiUrl fileId) = 0 →
      ¬ maxBytes < w.statSize (outFilePath w fileId) → w.curlStatus ≠ 0 →
      (∃ pre, (handleFile w fileId maxBytes).evs =
        pre ++ [.unlink (outFilePath w fileId), .rmdirRec (mkTmpDir w)]) ∧
      (handleFile w fileId maxBytes).completed = false) ∧
    (∀ (w : World) (folderId : String) (maxBytes : Nat) (resp : FolderResp)
        (files : List FileEntry),
      w.folderResp = some resp → resp.ok = true → resp.jsonOk = true →
      resp.filesField = some files → files ≠ [] →
      ¬ maxBytes < totalSize files → sendsOk w →
      (∀ f ∈ files, w.wgetStatus (fileApiUrl f.id) = 0) → w.zipStatus = 0 →
      ¬ maxBytes < w.statSize (zipFilePath w folderId) → w.curlStatus = 0 →
      ∃ pre, (handleFolder w folderId maxBytes).evs =
        pre ++ [.unlink (zipFilePath w folderId), .rmdirRec (mkTmpDir w)]) ∧
    (∀ (w : World) (folderId : String) (maxBytes : Nat) (resp : FolderResp)
        (files₁ : List FileEntry) (f : FileEntry) (files₂ : List FileEntry),
      w.folderResp = some resp → resp.ok = true → resp.jsonOk = true →
      resp.filesField = some (files₁ ++ f :: files₂) →
      ¬ maxBytes < totalSize (files₁ ++ f :: files₂) → sendsOk w →
      (∀ g ∈ files₁, w.wgetStatus (fileApiUrl g.id) = 0) →
      w.wgetStatus (fileApiUrl f.id) ≠ 0 →
      (∃ pre, (handleFolder w folderId maxBytes).evs =
        pre ++ [.rmdirRec (mkTmpDir w)]) ∧
      (handleFolder w folderId maxBytes).completed = false) ∧
    (∀ (w : World) (folderId : String) (maxBytes : Nat) (resp : FolderResp)
        (files : List FileEntry),
      w.folderResp = some resp → resp.ok = true → resp.jsonOk = true →
      resp.filesField = some files → files ≠ [] →
      ¬ maxBytes < totalSize files → sendsOk w →
      (∀ f ∈ files, w.wgetStatus (fileApiUrl f.id) = 0) → w.zipStatus ≠ 0 →
      (∃ pre, (handleFolder w folderId maxBytes).evs =
        pre ++ [.rmdirRec (mkTmpDir w)]) ∧
      (handleFolder w folderId maxBytes).completed = false) ∧
    (∀ (w : World) (folderId : String) (maxBytes : Nat) (resp : FolderResp)
        (files : List FileEntry),
      w.folderResp = some resp → resp.ok = true → resp.jsonOk = true →
      resp.filesField = some files → files ≠ [] →
      ¬ maxBytes < totalSize files → sendsOk w →
      (∀ f ∈ files, w.wgetStatus (fileApiUrl f.id) = 0) → w.zipStatus = 0 →
      ¬ maxBytes < w.statSize (zipFilePath w folderId) → w.curlStatus ≠ 0 →
      (∃ pre, (handleFolder w folderId maxBytes).evs =
        pre ++ [.rmdirRec (mkTmpDir w)]) ∧
      (handleFolder w folderId maxBytes).completed = false) ∧
    (∀ (w : World) (folderId : String) (maxBytes : Nat) (resp : FolderResp)
        (files : List FileEntry),
      w.folderResp = some resp → resp.ok = true → resp.jsonOk = true →
      resp.filesField = some files → files ≠ [] →
      ¬ maxBytes < totalSize files → sendsOk w →
      (∀ f ∈ files, w.wgetStatus (fileApiUrl f.id) = 0) → w.zipStatus = 0 →
      maxBytes < w.statSize (zipFilePath w folderId) →
      mkTmpDir w ≠ zipFilePath w folderId →
      removesPath (handleFolder w folderId maxBytes).evs
        (zipFilePath w folderId) = false ∧
      ∃ pre, (handleFolder w folderId maxBytes).evs =
        pre ++ [.rmdirRec (mkTmpDir w)]) ∧
    (∀ e, (cleanup e).res = .ok ()) := by
  refine ⟨?_, ?_, ?_, ?_, ?_, ?_, ?_, ?_, fun _ => rfl⟩
  · intro w fileId maxBytes hname hg hs hw hle hc
    refine ⟨[.httpHead (fileApiUrl fileId), .mkdtemp (mkTmpDir w),
      .tgSend (downloadingMsg (probedName w fileId)),
      .wgetRun (fileApiUrl fileId) (outFilePath w fileId),
      .tgSend (uploadingMsg (probedName w fileId)),
      .curlUpload (outFilePath w fileId) (fileCaption (probedName w fileId)),
      .tgSend (uploadedMsg (probedName w fileId))], ?_⟩
    rw [handleFile_success w fileId maxBytes hname hg hs hw hle hc]
    rfl
  · intro w fileId maxBytes hname hg hs hw
    constructor
    · refine ⟨[.httpHead (fileApiUrl fileId), .mkdtemp (mkTmpDir w),
        .tgSend (downloadingMsg (probedName w fileId)),
        .wgetRun (fileApiUrl fileId) (outFilePath w fileId)], ?_⟩
      rw [handleFile_wget_fail w fileId maxBytes hname hg hs hw]
      rfl
    · rw [handleFile_wget_fail w fileId maxBytes hname hg hs hw]
      rfl
  · intro w fileId maxBytes hname hg hs hw hle hc
    constructor
    · refine ⟨[.httpHead (fileApiUrl fileId), .mkdtemp (mkTmpDir w),
        .tgSend (downloadingMsg (probedName w fileId)),
        .wgetRun (fileApiUrl fileId) (outFilePath w fileId),
        .tgSend (uploadingMsg (probedName w fileId)),
        .curlUpload (outFilePath w fileId) (fileCaption (probedName w fileId))], ?_⟩
      rw [handleFile_curl_fail w fileId maxBytes hname hg hs hw hle hc]
      rfl
    · rw [handleFile_curl_fail w fileId maxBytes hname hg hs hw hle hc]
      rfl
  · intro w folderId maxBytes resp files hresp hok hj hf hne hsmall hs hwall
      hz hzle hc
    refine ⟨[.httpGet (folderApiUrl folderId), .mkdtemp (mkTmpDir w),
        .tgSend (dlFolderMsg files.length)]
      ++ files.map (fun f =>
           .wgetRun (fileApiUrl f.id) (mkTmpDir w ++ "/" ++ replaceSlashes f.name))
      ++ [.zipRun (zipFilePath w folderId) (mkTmpDir w),
          .tgSend (uploadingZipMsg (w.statSize (zipFilePath w folderId))),
          .curlUpload (zipFilePath w folderId) (folderCaption folderId),
          .tgSend zipDoneMsg], ?_⟩
    rw [handleFolder_zip_upload_ok w folderId maxBytes resp files hresp hok hj
      hf hne hsmall hs hwall hz hzle hc]
    simp
  · intro w folderId maxBytes resp files₁ f files₂ hresp hok hj hf hsmall hs
      hall hfail
    have heq := handleFolder_dl_fail w folderId maxBytes resp files₁ f files₂
      hresp hok hj hf hsmall hs hall hfail
    constructor
    · refine ⟨[.httpGet (folderApiUrl folderId), .mkdtemp (mkTmpDir w),
          .tgSend (dlFolderMsg (files₁ ++ f :: files₂).length)]
        ++ files₁.map (fun g =>
             .wgetRun (fileApiUrl g.id) (mkTmpDir w ++ "/" ++ replaceSlashes g.name))
        ++ [.wgetRun (fileApiUrl f.id)
              (mkTmpDir w ++ "/" ++ replaceSlashes f.name)], ?_⟩
      rw [heq]
      simp
    · rw [heq]
      rfl
  · intro w folderId maxBytes resp files hresp hok hj hf hne hsmall hs hwall hz
    have heq := handleFolder_zip_fail w folderId maxBytes resp files hresp hok
      hj hf hne hsmall hs hwall hz
    constructor
    · refine ⟨[.httpGet (folderApiUrl folderId), .mkdtemp (mkTmpDir w),
          .tgSend (dlFolderMsg files.length)]
        ++ files.map (fun f =>
             .wgetRun (fileApiUrl f.id) (mkTmpDir w ++ "/" ++ replaceSlashes f.name))
        ++ [.zipRun (zipFilePath w folderId) (mkTmpDir w)], ?_⟩
      rw [heq]
      simp
    · rw [heq]
      rfl
  · intro w folderId maxBytes resp files hresp hok hj hf hne hsmall hs hwall
      hz hzle hc
    have heq := handleFolder_curl_fail w folderId maxBytes resp files hresp hok
      hj hf hne hsmall hs hwall hz hzle hc
    constructor
    · refine ⟨[.httpGet (folderApiUrl folderId), .mkdtemp (mkTmpDir w),
          .tgSend (dlFolderMsg files.length)]
        ++ files.map (fun f =>
             .wgetRun (fileApiUrl f.id) (mkTmpDir w ++ "/" ++ replaceSlashes f.name))
        ++ [.zipRun (zipFilePath w folderId) (mkTmpDir w),
            .tgSend (uploadingZipMsg (w.statSize (zipFilePath w folderId))),
            .curlUpload (zipFilePath w folderId) (folderCaption folderId)], ?_⟩
      rw [heq]
      simp
    · rw [heq]
      rfl
  · intro w folderId maxBytes resp files hresp hok hj hf hne hsmall hs hwall
      hz hzbig hneq
    have heq := handleFolder_zip_too_big w folderId maxBytes resp files hresp
      hok hj hf hne hsmall hs hwall hz hzbig
    constructor
    · rw [heq]
      simp [removesPath, evRemoves, beq_eq_false_iff_ne, hneq]
    · refine ⟨[.httpGet (folderApiUrl folderId), .mkdtemp (mkTmpDir w),
          .tgSend (dlFolderMsg files.length)]
        ++ files.map (fun f =>
             .wgetRun (fileApiUrl f.id) (mkTmpDir w ++ "/" ++ replaceSlashes f.name))
        ++ [.zipRun (zipFilePath w folderId) (mkTmpDir w),
            .tgSend (zipTooBigMsg (w.statSize (zipFilePath w folderId)))]
        ++ files.map (fun f => .tgSend (memberLinkMsg f)), ?_⟩
      rw [heq]

/-- Witness for C6 (amended): success-path cleanup at the healthy world, a
failure-path cleanup at the failed-download world, and the archive left
behind at the oversized-zip world. -/
theorem C6_witness :
    (∃ pre, (handleFile wBase "abc123" 1000).evs =
      pre ++ [.unlink (outFilePath wBase "abc123"), .rmdirRec (mkTmpDir wBase)]) ∧
    (∃ pre, (handleFile wDlFail "abc123" 1000).evs =
      pre ++ [.unlink (outFilePath wDlFail "abc123"), .rmdirRec (mkTmpDir wDlFail)]) ∧
    removesPath (handleFolder wZipBig2 "fold66" 1000).evs
      (zipFilePath wZipBig2 "fold66") = false :=
  ⟨C6_amended.1 wBase "abc123" 1000 rfl (by decide) (fun _ => rfl) rfl
     (by decide) rfl,
   (C6_amended.2.1 wDlFail "abc123" 1000 rfl rfl (fun _ => rfl) (by decide)).1,
   (C6_amended.2.2.2.2.2.2.2.1 wZipBig2 "fold66" 1000 folderRespOk
      [entry1, entry2] rfl rfl rfl rfl (by decide) (by decide) (fun _ => rfl)
      (fun _ _ => rfl) rfl (by decide) (by decide)).1⟩

/-! ## Claim C8 (corrected) -/

/-- **C8 counterexample.** For a link matching neither pattern the run makes
TWO network calls, and the first — the fixed startup notification — precedes
classification and is not the at-exit error notification, contradicting "no
network calls other than the exit notification". -/
theorem C8_counterexample :
    (runScript wUnrec2).1 = [.tgSend startMsg, .tgSend (errNotifMsg noLinkErr)] ∧
    (runScript wUnrec2).2 = 1 ∧
    ¬ (∀ e ∈ (runScript wUnrec2).1, e = .tgSend (errNotifMsg noLinkErr)) := by
  decide

/-- **C8 (amended).** For every configured run whose link matches neither
pattern, classification fails with the unrecognized-link error and the
process exits 1; the only network calls of the whole run are the startup
notification (sent before classification) and the best-effort error
notification — in particular no file-hosting API request is ever issued. -/
theorem C8_amended (w : World) (h1 : envFalsy w.pixelLink = false)
    (h2 : envFalsy w.tgToken = false) (h3 : envFalsy w.tgChatId = false)
    (hstart : w.sendThrows startMsg = false)
    (hu : searchPixel 'u' (w.pixelLink.getD "").data = none)
    (hl : searchPixel 'l' (w.pixelLink.getD "").data = none) :
    runScript w = ([.tgSend startMsg, .tgSend (errNotifMsg noLinkErr)], 1) ∧
    (∀ e ∈ (runScript w).1, ∃ t, e = Ev.tgSend t) := by
  have hm := mainBody_unrecognized w h1 h2 h3 hstart hu hl
  have htr : runScript w =
      ([.tgSend startMsg, .tgSend (errNotifMsg noLinkErr)], 1) := by
    simp [runScript, hm, crashHandler_evs w _ h2 h3]
  refine ⟨htr, ?_⟩
  intro e he
  rw [htr] at he
  simp only [List.mem_cons, List.mem_singleton, List.not_mem_nil, or_false] at he
  rcases he with rfl | rfl
  · exact ⟨startMsg, rfl⟩
  · exact ⟨errNotifMsg noLinkErr, rfl⟩

/-- Witness for C8 (amended) at a concrete unrecognized link. -/
theorem C8_witness :
    runScript wUnrec2 = ([.tgSend startMsg, .tgSend (errNotifMsg noLinkErr)], 1) :=
  (C8_amended wUnrec2 rfl rfl rfl rfl (by decide) (by decide)).1

end PixelBot
